import Mathlib

/-!
The dzen bar lifecycle manager (`dzen.go`): shallow embedding and verified properties.

The Go package keeps its state in package-level variables and talks to the
outside world by launching `dzen2` processes and writing to their standard
input.  The embedding threads one record `St` through every function:

* the package variables (`monitors`, `config`, `keys`, `data`, `username`,
  the cached layout fields and the two slot arrays);
* the environment: which launch attempts succeed, which writes, closes and
  waits fail (read-only oracles), the counter that names launched processes,
  and the trace of external effects performed so far.

Conventions.

* A Go `string` is a Lean `String`; `len` is the UTF-8 byte length.  The
  format strings of the source contain the characters U+00A0, U+E032, U+E04A,
  U+E04B and U+E062; they are written here with their escapes.
* A Go `int` is a Lean `Int` in the 64-bit range.  The sum of the `length`
  fields in `barWidthFromKey` is reduced with `wrap64`; the geometry is
  computed on pixel sizes, where no wrap-around occurs.
* `float32` is modelled exactly as a dyadic number with a 24-bit significand
  and round-to-nearest-even; exponent range is not modelled (a 64-bit integer
  times 7.5 stays far below 2^128 and is never subnormal).  The conversion
  `int(x)` of a value outside the 64-bit range gives the least 64-bit integer,
  as on amd64.
* A run-time error of Go (index out of range, call through a nil interface)
  is `Stop.panic`.  The call cycle `statusBar → resizeDzenMainBar →
  drawDzenMainBar → drawDzenMainBarByMonitor → statusBar` is unfolded with a
  fuel counter; `Stop.outOfFuel` is reported when the counter is exhausted.
* `go closeDzenBar(&oldBar)` is recorded in the trace as `Event.goClose`.  The
  goroutine receives the address of the one variable `oldBar` that all
  iterations share, so which handle it closes depends on scheduling; its body
  is not run by the model and the event carries no handle.
* `log.Printf` is recorded as `Event.log` with the call site and the error;
  the formatted message is not reproduced.
-/

namespace Dzen

/-! ## Data model -/

/-- A Go `error` value, represented by its message. -/
abbrev GoError := String

/-- Abnormal ends of a run of the model. -/
inductive Stop where
  | panic
  | outOfFuel
deriving DecidableEq, Repr

/-- The type `colorInfo` of the source. -/
structure colorInfo where
  SidebarsBg : String
  SidebarsFg : String
  Urgent : String
  Key : String
  Value : String
  Bg : String
deriving DecidableEq, Repr

/-- The type `dzenInfo` of the source.  `cmd` and `stdin` are references to a
process and to its input stream; `none` is Go's `nil`. -/
structure dzenInfo where
  name : String
  cmd : Option Nat
  args : List String
  stdin : Option Nat
  hidden : Bool
deriving DecidableEq, Repr

/-- The type `popupConfig` of the source. -/
structure popupConfig where
  Info : String
  Clock : String
  Weather : String
  User : String
deriving DecidableEq, Repr

/-- The type `barConfig` of the source. -/
structure barConfig where
  Height : Int
  LeftBarWidth : Int
  Contiguous : String
  Position : String
deriving DecidableEq, Repr

/-- The type `info` of the source.  `format` points to one of the two format
templates; the pointer is represented by the template it points to. -/
structure info where
  icon : String
  key : String
  value : String
  format : Option String
  formatted : String
  length : Int
deriving DecidableEq, Repr

/-- Modelled from the spec: the element type of `monitors`, declared outside
`dzen.go`; the file reads its fields `width` and `height`. -/
structure monitor where
  width : Int
  height : Int
deriving DecidableEq, Repr

/-- Modelled from the spec: the type of the package variable `config`, declared
outside `dzen.go`; the file reads `Font`, `Colors`, `Popups` and `Bar`. -/
structure Config where
  Font : String
  Colors : colorInfo
  Popups : popupConfig
  Bar : barConfig
deriving DecidableEq, Repr

/-- Result of one `execDzen` call, decided by the environment. -/
inductive SpawnOutcome where
  | started
  | pipeFailed (err : GoError)
  | startFailed (err : GoError)
deriving DecidableEq, Repr

/-- External effects, in the order in which the program performs them. -/
inductive Event where
  | exec (id : Nat) (args : List String) (outcome : SpawnOutcome)
  | write (stream : Nat) (text : String)
  | close (stream : Nat)
  | wait (proc : Nat)
  | log (site : String) (err : GoError)
  | goClose
deriving DecidableEq, Repr

/-- Package variables of `dzen.go` together with the environment. -/
structure St where
  monitors : List monitor
  config : Config
  keys : List String
  data : String → Option info
  username : String
  mainbarWidth : Int
  leftBarWidth : Int
  barHeight : Int
  contiguousBar : Bool
  isTopBar : Bool
  dzenMainbar : List dzenInfo
  dzenLeftbar : List dzenInfo
  nextId : Nat
  spawnOutcome : Nat → SpawnOutcome
  writeErr : Nat → String → Option GoError
  closeErr : Nat → Option GoError
  waitErr : Nat → Option GoError
  trace : List Event

/-- The zero value `dzenInfo{}`. -/
def dzenInfo.zero : dzenInfo :=
  { name := "", cmd := none, args := [], stdin := none, hidden := false }

/-- Go's `len` on a string: the number of bytes. -/
def goLen (s : String) : Int := (s.utf8ByteSize : Int)

/-- The verb `%d` of `fmt.Sprintf`. -/
def fmtInt (n : Int) : String := toString n

/-- Appends an event to the trace. -/
def emit (s : St) (e : Event) : St := { s with trace := s.trace ++ [e] }

/-- Indexing `xs[i]` with Go's bounds check. -/
def indexAt {α : Type} (xs : List α) (i : Int) : Except Stop α :=
  if i < 0 then .error .panic
  else match xs[i.toNat]? with
    | some x => .ok x
    | none => .error .panic

/-- Assignment `xs[i] = v` with Go's bounds check. -/
def storeAt {α : Type} (xs : List α) (i : Int) (v : α) : Except Stop (List α) :=
  if 0 ≤ i ∧ i.toNat < xs.length then .ok (xs.set i.toNat v) else .error .panic

/-! ## `float32` arithmetic -/

/-- A finite `float32` value `mant * 2 ^ exp`. -/
structure float32 where
  mant : Int
  exp : Int
deriving DecidableEq, Repr

/-- Number of low bits to drop so that what is left of `n` is below `2 ^ 24`. -/
def shiftCount : Nat → Nat → Nat
  | 0, _ => 0
  | fuel + 1, n => if n < 2 ^ 24 then 0 else shiftCount fuel (n / 2) + 1

/-- Rounds the dyadic number `m * 2 ^ e` to a 24-bit significand, ties to even. -/
def float32.round (m e : Int) : float32 :=
  let n := m.natAbs
  let k := shiftCount n n
  let q := n / 2 ^ k
  let r := n % 2 ^ k
  let q1 := if 2 ^ k < 2 * r ∨ (2 * r = 2 ^ k ∧ q % 2 = 1) then q + 1 else q
  { mant := m.sign * (q1 : Int), exp := e + (k : Int) }

/-- The conversion `float32(w)` of an integer. -/
def float32.ofInt (w : Int) : float32 := float32.round w 0

/-- The product of two `float32` values: the exact product, rounded. -/
def float32.mul (a b : float32) : float32 := float32.round (a.mant * b.mant) (a.exp + b.exp)

/-- Reduction of an integer to the 64-bit two's complement range. -/
def wrap64 (x : Int) : Int := (x + 2 ^ 63) % 2 ^ 64 - 2 ^ 63

/-- The values of Go's `int` on a 64-bit platform. -/
def inInt64 (x : Int) : Prop := -2 ^ 63 ≤ x ∧ x < 2 ^ 63

instance (x : Int) : Decidable (inInt64 x) := by
  unfold inInt64
  infer_instance

/-- The value of a finite `float32` with its fraction discarded. -/
def float32.trunc (x : float32) : Int :=
  if 0 ≤ x.exp then x.mant * 2 ^ x.exp.toNat else Int.tdiv x.mant (2 ^ (-x.exp).toNat)

/-- The conversion `int(x)`: the fraction is discarded; a value outside the
64-bit range gives the least 64-bit integer. -/
def float32.toInt (x : float32) : Int :=
  if -2 ^ 63 ≤ x.trunc ∧ x.trunc < 2 ^ 63 then x.trunc else -2 ^ 63

/-- The constant `barWidthMagic = 7.5`, as a `float32`: `15 * 2 ^ (-1)`. -/
def barWidthMagic : float32 := { mant := 15, exp := -1 }

/-- The expression `int(float32(w) * barWidthMagic)`. -/
def scaleByMagic (w : Int) : Int := (float32.mul (float32.ofInt w) barWidthMagic).toInt

/-! ## The functions of `dzen.go` -/

/-- The function `initDzenBars`. -/
def initDzenBars (s : St) : St :=
  { s with
    dzenLeftbar := List.replicate s.monitors.length dzenInfo.zero
    dzenMainbar := List.replicate s.monitors.length dzenInfo.zero }

/-- The field `data[k].length`, the zero value when `k` is not in the map. -/
def lengthOf (s : St) (k : String) : Int :=
  match s.data k with
  | some collected => collected.length
  | none => 0

/-- The loop of `barWidthFromKey`: the pair `(w, started)` after the keys `ks`. -/
def barWidthLoop (s : St) (key : String) : List String → Int × Bool → Int × Bool
  | [], acc => acc
  | k :: ks, (w, started) =>
    let started := if k = key then true else started
    let w := if started then wrap64 (w + lengthOf s k) else w
    barWidthLoop s key ks (w, started)

/-- The function `barWidthFromKey`. -/
def barWidthFromKey (s : St) (key : String) : Int :=
  let w := (barWidthLoop s key s.keys (0, false)).1
  let w := wrap64 (w + wrap64 (goLen s.username + 5))
  scaleByMagic w

/-- The function `leftBarContent`. -/
def leftBarContent (s : St) (screen : Int) : Except Stop String :=
  let c := s.config.Colors
  if 0 < goLen s.config.Popups.Info then do
    let m ← indexAt s.monitors screen
    .ok ("^ca(1," ++ s.config.Popups.Info ++ " " ++ fmtInt (screen + 1) ++ " " ++ fmtInt m.width
      ++ " " ++ fmtInt m.height ++ ")^fg(" ++ c.SidebarsFg ++ ")^bg(" ++ c.SidebarsBg
      ++ ") \ue062 info^fg(" ++ c.SidebarsBg ++ ")^bg(" ++ c.Bg ++ ")\ue04a  ^ca()\n")
  else
    .ok ("^fg(" ++ c.SidebarsFg ++ ")^bg(" ++ c.SidebarsBg ++ ") \ue062 info^fg("
      ++ c.SidebarsBg ++ ")^bg(" ++ c.Bg ++ ")\ue04a  \n")

/-- The loop of `statusBarLen`: the text `bar` after the keys `ks`. -/
def statusBarLenLoop (s : St) : List String → String → String
  | [], bar => bar
  | key :: ks, bar =>
    match s.data key with
    | some collected =>
      statusBarLenLoop s ks (bar ++ "\u00a0" ++ collected.icon ++ " " ++ collected.value)
    | none => statusBarLenLoop s ks bar

/-- The function `statusBarLen`. -/
def statusBarLen (s : St) : Int := goLen (statusBarLenLoop s s.keys "")

/-- A clickable metric of `statusBar`: `Sprintf` with the format
`%s, U+00A0, ^ca(1,%s %d %d %d %d)%s^ca()` applied to `bar, popup, screen+1, width,
height, barWidth, formatted`. -/
def clickable (bar popup : String) (screen : Int) (m : monitor) (barWidth : Int)
    (formatted : String) : String :=
  bar ++ "\u00a0^ca(1," ++ popup ++ " " ++ fmtInt (screen + 1) ++ " " ++ fmtInt m.width ++ " "
    ++ fmtInt m.height ++ " " ++ fmtInt barWidth ++ ")" ++ formatted ++ "^ca()"

/-- The loop of `statusBar`: the text `bar` after the keys `ks`. -/
def statusBarLoop (s : St) (screen : Int) : List String → String → Except Stop String
  | [], bar => .ok bar
  | key :: ks, bar =>
    match s.data key with
    | some collected =>
      if key = "clock" ∧ 0 < goLen s.config.Popups.Clock then do
        let barWidth := barWidthFromKey s key
        let m ← indexAt s.monitors screen
        statusBarLoop s screen ks
          (clickable bar s.config.Popups.Clock screen m barWidth collected.formatted)
      else if key = "weather" ∧ 0 < goLen s.config.Popups.Weather then do
        let barWidth := barWidthFromKey s key
        let m ← indexAt s.monitors screen
        statusBarLoop s screen ks
          (clickable bar s.config.Popups.Weather screen m barWidth collected.formatted)
      else
        statusBarLoop s screen ks (bar ++ "\u00a0" ++ collected.formatted)
    | none => statusBarLoop s screen ks bar

/-- The username segment that `statusBar` appends to `bar`. -/
def userSegment (s : St) (screen : Int) (bar : String) : Except Stop String :=
  let c := s.config.Colors
  if 0 < goLen s.config.Popups.User then do
    let m ← indexAt s.monitors screen
    .ok (bar ++ " ^ca(1," ++ s.config.Popups.User ++ " " ++ fmtInt (screen + 1) ++ " "
      ++ fmtInt m.width ++ " " ++ fmtInt m.height ++ ")^fg(" ++ c.SidebarsBg ++ ")\ue04b^fg("
      ++ c.SidebarsFg ++ ")^bg(" ++ c.SidebarsBg ++ ")\ue032 " ++ s.username ++ " ^ca()")
  else
    .ok (bar ++ " ^fg(" ++ c.SidebarsBg ++ ")\ue04b^fg(" ++ c.SidebarsFg ++ ")^bg("
      ++ c.SidebarsBg ++ ")\ue032 " ++ s.username ++ " ")

/-- The text that `statusBar` builds before it calls `resizeDzenMainBar`. -/
def statusBarText (s : St) (screen : Int) : Except Stop String := do
  let bar ← statusBarLoop s screen s.keys ""
  userSegment s screen bar

/-- The function `statusBar`, with the call of `resizeDzenMainBar` as a parameter. -/
def statusBarWith (resize : St → Except Stop St) (s : St) (screen : Int) :
    Except Stop (String × St) := do
  let bar ← statusBarText s screen
  let s1 ← resize s
  .ok (bar, s1)

/-- The state after `io.WriteString(stream, text)` on an open stream: the write
is recorded, and the `log.Printf` of the call site when the write fails. -/
def wrote (s : St) (stream : Nat) (text : String) (site : String) : St :=
  let s1 := emit s (.write stream text)
  match s.writeErr stream text with
  | some err => emit s1 (.log site err)
  | none => s1

/-- The call `io.WriteString(stdin, text)` followed by the `log.Printf` of the
call site when the write fails.  Writing through a nil interface panics. -/
def writeString (s : St) (stdin : Option Nat) (text : String) (site : String) :
    Except Stop St :=
  match stdin with
  | none => .error .panic
  | some stream => .ok (wrote s stream text site)

/-- The state after one launch attempt with the arguments `args`. -/
def spawned (s : St) (args : List String) : St :=
  { emit s (.exec s.nextId args (s.spawnOutcome s.nextId)) with nextId := s.nextId + 1 }

/-- The function `execDzen`: returns `(dzen, stdin, err)`.  `StdinPipe` may
fail, and then `Start` is not called; otherwise `Start` may fail. -/
def execDzen (s : St) (args : List String) : (Option Nat × Option Nat × Option GoError) × St :=
  let id := s.nextId
  match s.spawnOutcome id with
  | .started => ((some id, some id, none), spawned s args)
  | .pipeFailed err => ((some id, none, some err), spawned s args)
  | .startFailed err => ((some id, some id, some err), spawned s args)

/-- The function `closeDzenBar`.  The pointer argument is `none` for `nil`; the
second component of the result is the record it points to after the call. -/
def closeDzenBar (s : St) (dzen : Option dzenInfo) :
    (Bool × Option GoError) × Option dzenInfo × St :=
  match dzen with
  | none => ((false, none), none, s)
  | some d =>
    match d.stdin, d.cmd with
    | some stream, some proc =>
      let s1 := emit s (.close stream)
      match s.closeErr stream with
      | some err => ((false, some err), some d, emit s1 (.log "closeDzenBar: close" err))
      | none =>
        let d1 := { d with hidden := true }
        let s2 := emit s1 (.wait proc)
        match s.waitErr proc with
        | some err => ((true, some err), some d1, emit s2 (.log "closeDzenBar: wait" err))
        | none => ((true, none), some d1, s2)
    | _, _ => ((false, none), some d, s)

/-- The argument vector `dzenArgs` of `drawDzenMainBarByMonitor`. -/
def mainBarArgs (s : St) (monitor : Int) (m : Dzen.monitor) : List String :=
  let width := m.width - s.leftBarWidth
  let x := s.leftBarWidth
  let x := if !s.contiguousBar then m.width - s.mainbarWidth - 1 else x
  let width := if !s.contiguousBar then s.mainbarWidth else width
  let y := if !s.isTopBar then m.height - s.barHeight else 0
  ["-xs", fmtInt (monitor + 1), "-ta", "r", "-fn", s.config.Font, "-x", fmtInt x, "-y", fmtInt y,
    "-w", fmtInt width, "-h", fmtInt s.barHeight, "-bg", s.config.Colors.Bg, "-fg",
    s.config.Colors.Key, "-e", "button2=;"]

/-- The function `drawDzenMainBarByMonitor`, with the call of `resizeDzenMainBar`
made by `statusBar` as a parameter. -/
def drawDzenMainBarByMonitorWith (resize : St → Except Stop St) (s : St) (monitor : Int) :
    Except Stop ((dzenInfo × Option GoError) × St) :=
  if monitor < 0 ∨ (s.monitors.length : Int) ≤ monitor then
    .ok ((dzenInfo.zero, some "Monitor index incorrect"), s)
  else do
    let m ← indexAt s.monitors monitor
    let dzenArgs := mainBarArgs s monitor m
    match execDzen s dzenArgs with
    | ((_, _, some err), s1) => .ok ((dzenInfo.zero, some err), s1)
    | ((cmd, dzenStdin, none), s1) =>
      let (bar, s2) ← statusBarWith resize s1 monitor
      let s3 ← writeString s2 dzenStdin (bar ++ "\n") "drawDzenMainBarByMonitor"
      let dzenBar : dzenInfo :=
        { name := "main bar, monitor " ++ fmtInt monitor, cmd := cmd, args := dzenArgs,
          stdin := dzenStdin, hidden := false }
      let slots ← storeAt s3.dzenMainbar monitor dzenBar
      .ok ((dzenBar, none), { s3 with dzenMainbar := slots })

/-- The loop of `drawDzenMainBar`: `n` iterations starting at index `i`.  Each
iteration assigns `dzenMainbar[i]` to the shared variable `oldBar`, and after a
successful draw starts a goroutine on the address of that variable. -/
def drawDzenMainBarLoop (resize : St → Except Stop St) : Nat → Nat → St → Except Stop St
  | 0, _, s => .ok s
  | n + 1, i, s => do
    let _oldBar ← indexAt s.dzenMainbar (i : Int)
    let (r, s1) ← drawDzenMainBarByMonitorWith resize s (i : Int)
    let s2 := if r.2 = none then emit s1 .goClose else s1
    drawDzenMainBarLoop resize n (i + 1) s2

/-- The function `drawDzenMainBar`, with the call of `resizeDzenMainBar` made by
`statusBar` as a parameter. -/
def drawDzenMainBarWith (resize : St → Except Stop St) (s : St) : Except Stop St :=
  drawDzenMainBarLoop resize s.monitors.length 0 s

/-- The function `resizeDzenMainBar`.  Each level of fuel pays for one entry
into the function. -/
def resizeDzenMainBar : Nat → St → Except Stop St
  | 0, _ => .error .outOfFuel
  | fuel + 1, s =>
    if s.contiguousBar then .ok s
    else
      let newStatusbarLen := scaleByMagic (statusBarLen s)
      if newStatusbarLen ≠ s.mainbarWidth then
        drawDzenMainBarWith (resizeDzenMainBar fuel) { s with mainbarWidth := newStatusbarLen }
      else .ok s

/-- The function `statusBar`. -/
def statusBar (fuel : Nat) (s : St) (screen : Int) : Except Stop (String × St) :=
  statusBarWith (resizeDzenMainBar fuel) s screen

/-- The function `drawDzenMainBarByMonitor`. -/
def drawDzenMainBarByMonitor (fuel : Nat) (s : St) (monitor : Int) :
    Except Stop ((dzenInfo × Option GoError) × St) :=
  drawDzenMainBarByMonitorWith (resizeDzenMainBar fuel) s monitor

/-- The function `drawDzenMainBar`. -/
def drawDzenMainBar (fuel : Nat) (s : St) : Except Stop St :=
  drawDzenMainBarWith (resizeDzenMainBar fuel) s

/-- The loop of `updateStatusBar`: `n` iterations starting at index `i`. -/
def updateStatusBarLoop (fuel : Nat) : Nat → Nat → St → Except Stop St
  | 0, _, s => .ok s
  | n + 1, i, s =>
    if (i : Int) < (s.dzenMainbar.length : Int) then do
      let (bar, s1) ← statusBar fuel s (i : Int)
      let slot ← indexAt s1.dzenMainbar (i : Int)
      let s2 ← writeString s1 slot.stdin (bar ++ "\n") "updateStatusBar"
      updateStatusBarLoop fuel n (i + 1) s2
    else .ok s

/-- The function `updateStatusBar`.  `collectStats`, declared outside `dzen.go`,
refreshes the snapshot; the fresh snapshot is the argument `fresh`.  The loop
condition `i < len(dzenMainbar)` is evaluated at every iteration; the number of
slots does not change during the call, so that many iterations are run. -/
def updateStatusBar (fuel : Nat) (s : St) (fresh : String → Option info) : Except Stop St :=
  let s0 := { s with data := fresh }
  updateStatusBarLoop fuel s0.dzenMainbar.length 0 s0

/-- The argument vector `dzenArgs` of `drawDzenLeftBarByMonitor`. -/
def leftBarArgs (s : St) (monitor : Int) (m : Dzen.monitor) : List String :=
  let y := if !s.isTopBar then m.height - s.barHeight else 0
  ["-xs", fmtInt (monitor + 1), "-ta", "l", "-fn", s.config.Font, "-w", fmtInt s.leftBarWidth,
    "-h", fmtInt s.barHeight, "-x", "0", "-y", fmtInt y, "-bg", s.config.Colors.Bg, "-fg",
    s.config.Colors.Key, "-e", "button2=;"]

/-- The function `drawDzenLeftBarByMonitor`. -/
def drawDzenLeftBarByMonitor (s : St) (monitor : Int) :
    Except Stop ((dzenInfo × Option GoError) × St) :=
  if monitor < 0 ∨ (s.monitors.length : Int) ≤ monitor then
    .ok ((dzenInfo.zero, some "Monitor index incorrect"), s)
  else do
    let m ← indexAt s.monitors monitor
    let dzenArgs := leftBarArgs s monitor m
    match execDzen s dzenArgs with
    | ((_, _, some err), s1) => .ok ((dzenInfo.zero, some err), s1)
    | ((cmd, dzenStdin, none), s1) =>
      let status ← leftBarContent s1 monitor
      let s2 ← writeString s1 dzenStdin status "drawDzenLeftBarByMonitor"
      let dzenBar : dzenInfo :=
        { name := "left bar, monitor " ++ fmtInt monitor, cmd := cmd, args := dzenArgs,
          stdin := dzenStdin, hidden := false }
      let slots ← storeAt s2.dzenLeftbar monitor dzenBar
      .ok ((dzenBar, none), { s2 with dzenLeftbar := slots })

/-- The function `drawDzenByMonitor`. -/
def drawDzenByMonitor (fuel : Nat) (s : St) (monitor : Int) : Except Stop St := do
  let (r1, s1) ← drawDzenLeftBarByMonitor s monitor
  let s2 := match r1.2 with
    | some err => emit s1 (.log "drawDzenByMonitor: drawDzenLeftBarByMonitor" err)
    | none => s1
  let (r2, s3) ← drawDzenMainBarByMonitor fuel s2 monitor
  match r2.2 with
  | some err => .ok (emit s3 (.log "drawDzenByMonitor: drawDzenMainBarByMonitor" err))
  | none => .ok s3

/-- The function `closeDzenByMonitor`. -/
def closeDzenByMonitor (s : St) (monitor : Int) : Except Stop St := do
  let left ← indexAt s.dzenLeftbar monitor
  let (r1, left1, s1) := closeDzenBar s (some left)
  let slotsL ← storeAt s1.dzenLeftbar monitor (left1.getD left)
  let s2 := { s1 with dzenLeftbar := slotsL }
  let s3 := match r1.2 with
    | some err => emit s2 (.log "closeDzenByMonitor: left bar" err)
    | none => s2
  let main ← indexAt s3.dzenMainbar monitor
  let (r2, main1, s4) := closeDzenBar s3 (some main)
  let slotsM ← storeAt s4.dzenMainbar monitor (main1.getD main)
  let s5 := { s4 with dzenMainbar := slotsM }
  match r2.2 with
  | some err => .ok (emit s5 (.log "closeDzenByMonitor: main bar" err))
  | none => .ok s5

/-- The function `updateDzenConfig`. -/
def updateDzenConfig (s : St) : St :=
  let bar := s.config.Bar
  { s with
    contiguousBar := if 0 < goLen bar.Contiguous ∧ bar.Contiguous ≠ "yes" then false else true
    barHeight := if 0 < bar.Height then bar.Height else 15
    leftBarWidth := if 0 < bar.LeftBarWidth then bar.LeftBarWidth else 0
    isTopBar := if bar.Position = "bottom" then false else true }

/-- The function `toggleBars`. -/
def toggleBars (fuel : Nat) (s : St) (monitor : Int) : Except Stop St := do
  let left ← indexAt s.dzenLeftbar monitor
  let hidden := left.hidden
  if !hidden then closeDzenByMonitor s monitor else drawDzenByMonitor fuel s monitor

/-! ## Reference definitions used in the statements -/

/-- The state `s` with its mutable part replaced: cached main-bar width, the
two slot arrays, the process counter and the trace. -/
def St.upd (s : St) (w : Int) (mainbar leftbar : List dzenInfo) (nextId : Nat)
    (trace : List Event) : St :=
  { s with
    mainbarWidth := w, dzenMainbar := mainbar, dzenLeftbar := leftbar, nextId := nextId,
    trace := trace }

/-- The cached main-bar width needs no change: the layout is contiguous, or the
width computed from the snapshot is the cached one. -/
def synced (s : St) : Prop :=
  s.contiguousBar = true ∨ scaleByMagic (statusBarLen s) = s.mainbarWidth

/-- Truncation toward zero of `7.5 * w`, that is of `15 * w / 2`. -/
def truncMagic (w : Int) : Int := Int.tdiv (15 * w) 2

/-- Sum of the `length` fields from the first occurrence of `key` in the ordered
key sequence to its end; `0` when `key` does not occur. -/
def suffixLen (s : St) (key : String) : Int :=
  ((s.keys.dropWhile (fun k => !decide (k = key))).map (lengthOf s)).sum

/-- Plain length of one metric in the status line: `len(icon) + len(value) + 3`
when the snapshot has an entry for `k` (two bytes for the separator U+00A0 and
one for the blank), and `0` otherwise. -/
def metricLen (s : St) (k : String) : Int :=
  match s.data k with
  | some c => goLen c.icon + goLen c.value + 3
  | none => 0

/-- Sum over the ordered keys present in the snapshot of
`len(icon) + len(value) + 3`. -/
def plainLen (s : St) : Int := (s.keys.map (metricLen s)).sum

/-- The sum as the specification states it: `len(icon) + len(value) + 2` for
each ordered key present in the snapshot. -/
def statedPlainLen (s : St) : Int :=
  (s.keys.map (fun k => match s.data k with
    | some c => goLen c.icon + goLen c.value + 2
    | none => 0)).sum

/-- Concatenation of a list of texts. -/
def concatAll : List String → String
  | [] => ""
  | x :: xs => x ++ concatAll xs

/-- The segment of `key` in the status line; `none` when the snapshot has no
entry for `key`.  Every segment starts with the character U+00A0. -/
def segment (s : St) (screen : Int) (mon : monitor) (key : String) : Option String :=
  match s.data key with
  | none => none
  | some c =>
    if (key = "clock" ∧ s.config.Popups.Clock ≠ "") then
      some ("\u00a0^ca(1," ++ s.config.Popups.Clock ++ " " ++ fmtInt (screen + 1) ++ " "
        ++ fmtInt mon.width ++ " " ++ fmtInt mon.height ++ " " ++ fmtInt (barWidthFromKey s key)
        ++ ")" ++ c.formatted ++ "^ca()")
    else if (key = "weather" ∧ s.config.Popups.Weather ≠ "") then
      some ("\u00a0^ca(1," ++ s.config.Popups.Weather ++ " " ++ fmtInt (screen + 1) ++ " "
        ++ fmtInt mon.width ++ " " ++ fmtInt mon.height ++ " " ++ fmtInt (barWidthFromKey s key)
        ++ ")" ++ c.formatted ++ "^ca()")
    else some ("\u00a0" ++ c.formatted)

/-- The segment of `key` as the specification states it: with a blank where the
source has the character U+00A0. -/
def statedSegment (s : St) (screen : Int) (mon : monitor) (key : String) : Option String :=
  match s.data key with
  | none => none
  | some c =>
    if (key = "clock" ∧ s.config.Popups.Clock ≠ "") then
      some (" ^ca(1," ++ s.config.Popups.Clock ++ " " ++ fmtInt (screen + 1) ++ " "
        ++ fmtInt mon.width ++ " " ++ fmtInt mon.height ++ " " ++ fmtInt (barWidthFromKey s key)
        ++ ")" ++ c.formatted ++ "^ca()")
    else if (key = "weather" ∧ s.config.Popups.Weather ≠ "") then
      some (" ^ca(1," ++ s.config.Popups.Weather ++ " " ++ fmtInt (screen + 1) ++ " "
        ++ fmtInt mon.width ++ " " ++ fmtInt mon.height ++ " " ++ fmtInt (barWidthFromKey s key)
        ++ ")" ++ c.formatted ++ "^ca()")
    else some (" " ++ c.formatted)

/-- The username segment of the status line. -/
def usernameSegment (s : St) (screen : Int) (mon : monitor) : String :=
  let c := s.config.Colors
  if s.config.Popups.User ≠ "" then
    " ^ca(1," ++ s.config.Popups.User ++ " " ++ fmtInt (screen + 1) ++ " " ++ fmtInt mon.width
      ++ " " ++ fmtInt mon.height ++ ")^fg(" ++ c.SidebarsBg ++ ")\ue04b^fg(" ++ c.SidebarsFg
      ++ ")^bg(" ++ c.SidebarsBg ++ ")\ue032 " ++ s.username ++ " ^ca()"
  else
    " ^fg(" ++ c.SidebarsBg ++ ")\ue04b^fg(" ++ c.SidebarsFg ++ ")^bg(" ++ c.SidebarsBg
      ++ ")\ue032 " ++ s.username ++ " "

/-- The status line: the segments of the present keys in order, then the
username segment. -/
def statusLine (s : St) (screen : Int) (mon : monitor) : String :=
  concatAll (s.keys.filterMap (segment s screen mon)) ++ usernameSegment s screen mon

/-- The status line with the segments as the specification states them. -/
def statedLine (s : St) (screen : Int) (mon : monitor) : String :=
  concatAll (s.keys.filterMap (statedSegment s screen mon)) ++ usernameSegment s screen mon

/-- Position and size of a bar: the values of `-x`, `-y`, `-w` and `-h`. -/
structure Geometry where
  x : Int
  y : Int
  width : Int
  height : Int
deriving DecidableEq, Repr

/-- The main-bar geometry as the specification states it. -/
def mainBarGeometry (s : St) (mon : monitor) : Geometry :=
  { x := if s.contiguousBar then s.leftBarWidth else mon.width - s.mainbarWidth - 1
    y := if s.isTopBar then 0 else mon.height - s.barHeight
    width := if s.contiguousBar then mon.width - s.leftBarWidth else s.mainbarWidth
    height := s.barHeight }

/-- The argument vector of a main bar of geometry `g` on monitor `m`. -/
def mainBarArgv (s : St) (m : Int) (g : Geometry) : List String :=
  ["-xs", fmtInt (m + 1), "-ta", "r", "-fn", s.config.Font, "-x", fmtInt g.x, "-y", fmtInt g.y,
    "-w", fmtInt g.width, "-h", fmtInt g.height, "-bg", s.config.Colors.Bg, "-fg",
    s.config.Colors.Key, "-e", "button2=;"]

/-- The handle that a successful `drawDzenMainBarByMonitor` builds in state `s`. -/
def mainHandle (s : St) (m : Int) (mon : monitor) : dzenInfo :=
  { name := "main bar, monitor " ++ fmtInt m, cmd := some s.nextId, args := mainBarArgs s m mon,
    stdin := some s.nextId, hidden := false }

/-- The handle that a successful `drawDzenLeftBarByMonitor` builds in state `s`. -/
def leftHandle (s : St) (m : Int) (mon : monitor) : dzenInfo :=
  { name := "left bar, monitor " ++ fmtInt m, cmd := some s.nextId, args := leftBarArgs s m mon,
    stdin := some s.nextId, hidden := false }

/-- The events of one write of `text` to `stream` at call site `site`. -/
def writeEvents (s : St) (stream : Nat) (text : String) (site : String) : List Event :=
  match s.writeErr stream text with
  | some err => [.write stream text, .log site err]
  | none => [.write stream text]

/-- The events of closing a handle with stream `stream` and process `proc`. -/
def closeEvents (s : St) (stream proc : Nat) : List Event :=
  match s.closeErr stream with
  | some err => [.close stream, .log "closeDzenBar: close" err]
  | none =>
    match s.waitErr proc with
    | some err => [.close stream, .wait proc, .log "closeDzenBar: wait" err]
    | none => [.close stream, .wait proc]

/-- Number of launch attempts in a trace. -/
def execCount : List Event → Nat
  | [] => 0
  | .exec _ _ _ :: es => execCount es + 1
  | _ :: es => execCount es

/-- The texts written, in order, in a trace. -/
def writesOf : List Event → List String
  | [] => []
  | .write _ text :: es => text :: writesOf es
  | _ :: es => writesOf es

/-- The events of `updateStatusBar` for the slots `i, i + 1, …` (`n` of them):
one write of the status line and a newline to the stream of each slot. -/
def updateEvents (s : St) : Nat → Nat → List Event
  | 0, _ => []
  | n + 1, i =>
    (match s.dzenMainbar[i]?, s.monitors[i]? with
      | some slot, some mon =>
        (match slot.stdin with
          | some stream =>
            writeEvents s stream (statusLine s (i : Int) mon ++ "\n") "updateStatusBar"
          | none => [])
      | _, _ => []) ++ updateEvents s n (i + 1)

/-! ## Concrete states -/

/-- A colour palette. -/
def exColors : colorInfo :=
  { SidebarsBg := "#222", SidebarsFg := "#ddd", Urgent := "#f00", Key := "#aaa", Value := "#fff",
    Bg := "#000" }

/-- A configuration with a clock popup only and the default bar options. -/
def exConfig : Config :=
  { Font := "fixed", Colors := exColors,
    Popups := { Info := "", Clock := "popup-clock", Weather := "", User := "" },
    Bar := { Height := 0, LeftBarWidth := 200, Contiguous := "", Position := "" } }

/-- A snapshot with a volume and a clock metric. -/
def exData : String → Option info := fun k =>
  if k = "volume" then
    some { icon := "VOL", key := "volume", value := "50%", format := none,
           formatted := "^fg(#aaa)VOL ^fg(#fff)50%", length := 7 }
  else if k = "clock" then
    some { icon := "", key := "clock", value := "12:00", format := none,
           formatted := "^fg(#aaa) ^fg(#fff)12:00", length := 5 }
  else none

/-- Two monitors, contiguous top bar of default height, left bar 200 wide, empty
slots, and an environment in which every launch, write, close and wait succeeds. -/
def exState : St :=
  { monitors := [{ width := 1920, height := 1080 }, { width := 1280, height := 1024 }]
    config := exConfig
    keys := ["volume", "clock"]
    data := exData
    username := "joe"
    mainbarWidth := 500
    leftBarWidth := 200
    barHeight := 15
    contiguousBar := true
    isTopBar := true
    dzenMainbar := [dzenInfo.zero, dzenInfo.zero]
    dzenLeftbar := [dzenInfo.zero, dzenInfo.zero]
    nextId := 0
    spawnOutcome := fun _ => .started
    writeErr := fun _ _ => none
    closeErr := fun _ => none
    waitErr := fun _ => none
    trace := [] }

/-- The state `exState` with other colours, other popups, and other formatted
texts, templates and length fields in the snapshot; icons and values are kept. -/
def exRecolored : St :=
  { exState with
    config :=
      { exConfig with
        Colors := { SidebarsBg := "#abcdef", SidebarsFg := "#012345", Urgent := "#ff8800",
                    Key := "#00ff00", Value := "#0000ff", Bg := "#ffffff" }
        Popups := { Info := "popup-info", Clock := "", Weather := "popup-weather",
                    User := "popup-user" } }
    data := fun k => (exData k).map (fun c =>
      { c with format := some "^fg(#ff8800)%s %s", formatted := "^fg(#ff8800)" ++ c.formatted,
               length := c.length + 40 }) }

/-- The arguments of the left bar of `exState` on screen `xs`. -/
def exLeftArgs (xs : String) : List String :=
  ["-xs", xs, "-ta", "l", "-fn", "fixed", "-w", "200", "-h", "15", "-x", "0", "-y", "0", "-bg",
    "#000", "-fg", "#aaa", "-e", "button2=;"]

/-- The arguments of the contiguous main bar of `exState` on screen `xs`, `w` wide. -/
def exMainArgs (xs w : String) : List String :=
  ["-xs", xs, "-ta", "r", "-fn", "fixed", "-x", "200", "-y", "0", "-w", w, "-h", "15", "-bg",
    "#000", "-fg", "#aaa", "-e", "button2=;"]

/-- A running handle with process and stream `id`. -/
def exHandle (name : String) (id : Nat) (args : List String) : dzenInfo :=
  { name := name, cmd := some id, args := args, stdin := some id, hidden := false }

/-- The state `exState` after both monitors have been drawn: a visible handle in
every slot. -/
def exRunning : St :=
  { exState with
    dzenLeftbar := [exHandle "left bar, monitor 0" 0 (exLeftArgs "1"),
                    exHandle "left bar, monitor 1" 2 (exLeftArgs "2")]
    dzenMainbar := [exHandle "main bar, monitor 0" 1 (exMainArgs "1" "1720"),
                    exHandle "main bar, monitor 1" 3 (exMainArgs "2" "1080")]
    nextId := 4 }

/-- The configuration `exConfig` with the contiguous option set to "no". -/
def exLooseConfig : Config :=
  { exConfig with Bar := { Height := 0, LeftBarWidth := 200, Contiguous := "no", Position := "" } }

/-- The state `exState` under non-contiguous layout; the cached width is the
initial `500` of the source. -/
def exLoose : St := { exState with config := exLooseConfig, contiguousBar := false }

/-- The state `exRunning` after the configuration has changed to non-contiguous
layout and `updateDzenConfig` has run; the handles are those drawn before. -/
def exLooseRunning : St := { exRunning with config := exLooseConfig, contiguousBar := false }

/-- The run draw, toggle, toggle on monitor 0 from `exLoose`: the states after
each of the three calls. -/
def exLooseRun : Except Stop (St × St × St) := do
  let s1 ← drawDzenByMonitor 2 exLoose 0
  let s2 ← toggleBars 2 s1 0
  let s3 ← toggleBars 2 s2 0
  .ok (s1, s2, s3)

/-- What is observed of a handle: process, stream, hidden flag and arguments. -/
def observe (h : dzenInfo) : Option Nat × Option Nat × Bool × List String :=
  (h.cmd, h.stdin, h.hidden, h.args)

/-- The state `exState` with cached layout fields that disagree with its
configuration: non-contiguous, bottom, height 40, left bar 7 wide. -/
def exStale : St :=
  { exState with contiguousBar := false, isTopBar := false, barHeight := 40, leftBarWidth := 7 }

/-- One metric of length `1118480`, no username. -/
def exLongKeys : St :=
  { exState with
    keys := ["a"]
    data := fun k => if k = "a" then
      some { icon := "", key := "a", value := "", format := none, formatted := "",
             length := 1118480 } else none
    username := "" }

/-- A text of `n` bytes. -/
def filler (n : Nat) : String := String.mk (List.replicate n 'x')

/-- Non-contiguous layout and one metric whose value is `1118482` bytes long. -/
def exLongText : St :=
  { exState with
    contiguousBar := false
    keys := ["a"]
    data := fun k => if k = "a" then
      some { icon := "", key := "a", value := filler 1118482, format := none, formatted := "",
             length := 0 } else none }

/-! # Lemmas -/

/-! ## Strings and numbers -/

theorem goLen_append (a b : String) : goLen (a ++ b) = goLen a + goLen b := by
  cases a with
  | mk l₁ =>
    cases b with
    | mk l₂ =>
      show ((String.utf8Len (l₁ ++ l₂) : Nat) : Int) = _
      simp [goLen, String.utf8Len_append]

theorem goLen_pos_iff (a : String) : 0 < goLen a ↔ a ≠ "" := by
  cases a with
  | mk l =>
    simp only [goLen, String.utf8ByteSize_mk]
    constructor
    · intro h he
      have : l = [] := by simpa using congrArg String.data he
      subst this
      simp at h
    · intro h
      have hl : l ≠ [] := fun hl => h (by subst hl; rfl)
      have := (String.utf8Len_eq_zero (l := l)).not.mpr hl
      omega

theorem shiftCount_small (fuel n : Nat) (h : n < 2 ^ 24) : shiftCount fuel n = 0 := by
  cases fuel with
  | zero => rfl
  | succ f => simp only [shiftCount, h, if_true]

theorem round_small (m e : Int) (h : m.natAbs < 2 ^ 24) : float32.round m e = ⟨m, e⟩ := by
  simp [float32.round, shiftCount_small _ _ h, Nat.mod_one, Int.sign_mul_abs]

theorem wrap64_add_left (a b : Int) : wrap64 (wrap64 a + b) = wrap64 (a + b) := by
  unfold wrap64; omega

theorem wrap64_add_right (a b : Int) : wrap64 (a + wrap64 b) = wrap64 (a + b) := by
  unfold wrap64; omega

theorem wrap64_small (a : Int) (h1 : -2 ^ 63 ≤ a) (h2 : a < 2 ^ 63) : wrap64 a = a := by
  unfold wrap64; omega

theorem tdiv_two_bounds (a : Int) (h : a.natAbs < 2 ^ 24) :
    -2 ^ 63 ≤ Int.tdiv a 2 ∧ Int.tdiv a 2 < 2 ^ 63 := by
  rcases Int.le_total 0 a with h0 | h0
  · rw [Int.tdiv_eq_ediv h0 (by decide)]
    omega
  · have h1 : Int.tdiv a 2 = -(Int.tdiv (-a) 2) := by
      rw [Int.neg_tdiv, neg_neg]
    rw [h1, Int.tdiv_eq_ediv (by omega) (by decide)]
    omega

theorem scaleByMagic_exact (w : Int) (h : 15 * w.natAbs < 2 ^ 24) :
    scaleByMagic w = truncMagic w := by
  have h1 : w.natAbs < 2 ^ 24 := by omega
  have h2 : (w * 15).natAbs < 2 ^ 24 := by
    rw [Int.natAbs_mul]
    show w.natAbs * 15 < 2 ^ 24
    omega
  have h3 : (float32.mk (w * 15) (0 + -1)).trunc = Int.tdiv (w * 15) 2 := by
    simp [float32.trunc]
  have h4 := tdiv_two_bounds (w * 15) h2
  simp only [scaleByMagic, float32.ofInt, float32.mul, round_small _ _ h1, barWidthMagic,
    round_small _ _ h2, float32.toInt, truncMagic, h3, h4, and_self, if_true]
  rw [mul_comm]

theorem barWidthLoop_started (s : St) (key : String) (ks : List String) (w : Int) :
    wrap64 (barWidthLoop s key ks (w, true)).1 = wrap64 (w + (ks.map (lengthOf s)).sum) := by
  induction ks generalizing w with
  | nil => simp [barWidthLoop]
  | cons k ks ih =>
    simp only [barWidthLoop, if_true, ite_self, List.map_cons, List.sum_cons]
    rw [ih, wrap64_add_left, add_assoc]

theorem barWidthLoop_fresh (s : St) (key : String) (ks : List String) (w : Int) :
    wrap64 (barWidthLoop s key ks (w, false)).1
      = wrap64 (w + ((ks.dropWhile (fun k => !decide (k = key))).map (lengthOf s)).sum) := by
  induction ks generalizing w with
  | nil => simp [barWidthLoop]
  | cons k ks ih =>
    by_cases hk : k = key
    · have h := barWidthLoop_started s key ks (wrap64 (w + lengthOf s k))
      rw [wrap64_add_left] at h
      simp only [barWidthLoop, hk, if_true, List.dropWhile, decide_True, Bool.not_true,
        List.map_cons, List.sum_cons] at h ⊢
      rw [h, add_assoc]
    · simp [barWidthLoop, hk, List.dropWhile, ih]

theorem barWidthFromKey_eq (s : St) (key : String) :
    barWidthFromKey s key = scaleByMagic (wrap64 (suffixLen s key + goLen s.username + 5)) := by
  have h := barWidthLoop_fresh s key s.keys 0
  rw [zero_add] at h
  simp only [barWidthFromKey]
  rw [wrap64_add_right, ← wrap64_add_left, h, wrap64_add_left, suffixLen, add_assoc]

theorem suffixLen_absent (s : St) (key : String) (h : key ∉ s.keys) : suffixLen s key = 0 := by
  have : s.keys.dropWhile (fun k => !decide (k = key)) = [] := by
    rw [List.dropWhile_eq_nil_iff]
    intro x hx
    simp
    rintro rfl
    exact h hx
  simp [suffixLen, this]

theorem statusBarLenLoop_len (s : St) (ks : List String) (bar : String) :
    goLen (statusBarLenLoop s ks bar) = goLen bar + (ks.map (metricLen s)).sum := by
  induction ks generalizing bar with
  | nil => simp [statusBarLenLoop]
  | cons k ks ih =>
    cases hd : s.data k with
    | none => simp [statusBarLenLoop, hd, ih, metricLen]
    | some c =>
      have h1 : goLen " " = 1 := by decide
      have h2 : goLen "\u00a0" = 2 := by decide
      simp [statusBarLenLoop, hd, ih, goLen_append, h1, h2, metricLen]
      ring

theorem statusBarLen_eq_plainLen (s : St) : statusBarLen s = plainLen s := by
  have h0 : goLen "" = 0 := by decide
  simp [statusBarLen, plainLen, statusBarLenLoop_len, h0]

/-! ## The mutable part of the state -/

section upd
variable (s : St) (w : Int) (M L : List dzenInfo) (n : Nat) (T : List Event)

@[simp]
theorem upd_monitors : (s.upd w M L n T).monitors = s.monitors := rfl
@[simp]
theorem upd_config : (s.upd w M L n T).config = s.config := rfl
@[simp]
theorem upd_keys : (s.upd w M L n T).keys = s.keys := rfl
@[simp]
theorem upd_data : (s.upd w M L n T).data = s.data := rfl
@[simp]
theorem upd_username : (s.upd w M L n T).username = s.username := rfl
@[simp]
theorem upd_mainbarWidth : (s.upd w M L n T).mainbarWidth = w := rfl
@[simp]
theorem upd_leftBarWidth : (s.upd w M L n T).leftBarWidth = s.leftBarWidth := rfl
@[simp]
theorem upd_barHeight : (s.upd w M L n T).barHeight = s.barHeight := rfl
@[simp]
theorem upd_contiguousBar : (s.upd w M L n T).contiguousBar = s.contiguousBar := rfl
@[simp]
theorem upd_isTopBar : (s.upd w M L n T).isTopBar = s.isTopBar := rfl
@[simp]
theorem upd_dzenMainbar : (s.upd w M L n T).dzenMainbar = M := rfl
@[simp]
theorem upd_dzenLeftbar : (s.upd w M L n T).dzenLeftbar = L := rfl
@[simp]
theorem upd_nextId : (s.upd w M L n T).nextId = n := rfl
@[simp]
theorem upd_spawnOutcome : (s.upd w M L n T).spawnOutcome = s.spawnOutcome := rfl
@[simp]
theorem upd_writeErr : (s.upd w M L n T).writeErr = s.writeErr := rfl
@[simp]
theorem upd_closeErr : (s.upd w M L n T).closeErr = s.closeErr := rfl
@[simp]
theorem upd_waitErr : (s.upd w M L n T).waitErr = s.waitErr := rfl
@[simp]
theorem upd_trace : (s.upd w M L n T).trace = T := rfl

@[simp]
theorem upd_upd (w1 : Int) (M1 L1 : List dzenInfo) (n1 : Nat) (T1 : List Event) :
    (s.upd w M L n T).upd w1 M1 L1 n1 T1 = s.upd w1 M1 L1 n1 T1 := rfl

theorem upd_self : s.upd s.mainbarWidth s.dzenMainbar s.dzenLeftbar s.nextId s.trace = s := rfl

theorem emit_eq (e : Event) :
    emit s e = s.upd s.mainbarWidth s.dzenMainbar s.dzenLeftbar s.nextId (s.trace ++ [e]) := rfl

theorem spawned_eq (args : List String) :
    spawned s args = s.upd s.mainbarWidth s.dzenMainbar s.dzenLeftbar (s.nextId + 1)
      (s.trace ++ [.exec s.nextId args (s.spawnOutcome s.nextId)]) := rfl

theorem wrote_eq (stream : Nat) (text site : String) :
    wrote s stream text site = s.upd s.mainbarWidth s.dzenMainbar s.dzenLeftbar s.nextId
      (s.trace ++ writeEvents s stream text site) := by
  unfold wrote writeEvents
  cases s.writeErr stream text <;> simp [emit_eq]

theorem setMain_eq (slots : List dzenInfo) :
    { s with dzenMainbar := slots } = s.upd s.mainbarWidth slots s.dzenLeftbar s.nextId s.trace :=
  rfl

theorem setLeft_eq (slots : List dzenInfo) :
    { s with dzenLeftbar := slots } = s.upd s.mainbarWidth s.dzenMainbar slots s.nextId s.trace :=
  rfl

theorem setWidth_eq (w1 : Int) :
    { s with mainbarWidth := w1 } = s.upd w1 s.dzenMainbar s.dzenLeftbar s.nextId s.trace := rfl

@[simp]
theorem lengthOf_upd (k : String) : lengthOf (s.upd w M L n T) k = lengthOf s k := rfl

@[simp]
theorem barWidthLoop_upd (key : String) (ks : List String) (acc : Int × Bool) :
    barWidthLoop (s.upd w M L n T) key ks acc = barWidthLoop s key ks acc := by
  induction ks generalizing acc with
  | nil => rfl
  | cons k ks ih => obtain ⟨a, b⟩ := acc; simp [barWidthLoop, ih]

@[simp]
theorem barWidthFromKey_upd (key : String) :
    barWidthFromKey (s.upd w M L n T) key = barWidthFromKey s key := by
  simp [barWidthFromKey]

@[simp]
theorem statusBarLenLoop_upd (ks : List String) (bar : String) :
    statusBarLenLoop (s.upd w M L n T) ks bar = statusBarLenLoop s ks bar := by
  induction ks generalizing bar with
  | nil => rfl
  | cons k ks ih => simp only [statusBarLenLoop, upd_data, ih]

@[simp]
theorem statusBarLen_upd : statusBarLen (s.upd w M L n T) = statusBarLen s := by
  simp [statusBarLen]

@[simp]
theorem statusBarLoop_upd (screen : Int) (ks : List String) (bar : String) :
    statusBarLoop (s.upd w M L n T) screen ks bar = statusBarLoop s screen ks bar := by
  induction ks generalizing bar with
  | nil => rfl
  | cons k ks ih => simp only [statusBarLoop, upd_data, upd_config, upd_monitors, ih,
      barWidthFromKey_upd]

@[simp]
theorem userSegment_upd (screen : Int) (bar : String) :
    userSegment (s.upd w M L n T) screen bar = userSegment s screen bar := rfl

@[simp]
theorem statusBarText_upd (screen : Int) :
    statusBarText (s.upd w M L n T) screen = statusBarText s screen := by
  simp [statusBarText]

@[simp]
theorem leftBarContent_upd (screen : Int) :
    leftBarContent (s.upd w M L n T) screen = leftBarContent s screen := rfl

@[simp]
theorem leftBarArgs_upd (m : Int) (mon : monitor) :
    leftBarArgs (s.upd w M L n T) m mon = leftBarArgs s m mon := rfl

@[simp]
theorem mainBarArgs_upd (m : Int) (mon : monitor) :
    mainBarArgs (s.upd s.mainbarWidth M L n T) m mon = mainBarArgs s m mon := rfl

@[simp]
theorem writeEvents_upd (stream : Nat) (text site : String) :
    writeEvents (s.upd w M L n T) stream text site = writeEvents s stream text site := rfl

@[simp]
theorem closeEvents_upd (stream proc : Nat) :
    closeEvents (s.upd w M L n T) stream proc = closeEvents s stream proc := rfl

@[simp]
theorem segment_upd (screen : Int) (mon : monitor) (key : String) :
    segment (s.upd w M L n T) screen mon key = segment s screen mon key := by
  simp [segment]

@[simp]
theorem statusLine_upd (screen : Int) (mon : monitor) :
    statusLine (s.upd w M L n T) screen mon = statusLine s screen mon := by
  have : segment (s.upd w M L n T) screen mon = segment s screen mon := by
    funext k; simp
  simp [statusLine, this, usernameSegment]

@[simp]
theorem synced_upd :
    synced (s.upd s.mainbarWidth M L n T) ↔ synced s := by
  simp [synced]

theorem synced_setWidth :
    synced (s.upd (scaleByMagic (statusBarLen s)) M L n T) := by
  simp [synced]

end upd

/-! ## Indexing -/

theorem indexAt_some {α : Type} (xs : List α) (m : Nat) (x : α) (h : xs[m]? = some x) :
    indexAt xs (m : Int) = .ok x := by
  simp [indexAt, h]

theorem indexAt_none {α : Type} (xs : List α) (m : Nat) (h : xs[m]? = none) :
    indexAt xs (m : Int) = .error .panic := by
  simp [indexAt, h]

theorem storeAt_lt {α : Type} (xs : List α) (m : Nat) (v : α) (h : m < xs.length) :
    storeAt xs (m : Int) v = .ok (xs.set m v) := by
  simp [storeAt, h]

theorem storeAt_ge {α : Type} (xs : List α) (m : Nat) (v : α) (h : xs.length ≤ m) :
    storeAt xs (m : Int) v = .error .panic := by
  simp [storeAt, h]

theorem not_outOfRange (s : St) (m : Nat) (h : m < s.monitors.length) :
    ¬ (((m : Int) < 0) ∨ (s.monitors.length : Int) ≤ (m : Int)) := by
  omega

/-! ## The status line -/

theorem statusBarLoop_step (s : St) (m : Nat) (mon : monitor) (hm : s.monitors[m]? = some mon)
    (k : String) (ks : List String) (bar : String) :
    statusBarLoop s (m : Int) (k :: ks) bar
      = statusBarLoop s (m : Int) ks (bar ++ ((segment s (m : Int) mon k).getD "")) := by
  have hc' := goLen_pos_iff s.config.Popups.Clock
  have hw' := goLen_pos_iff s.config.Popups.Weather
  have hne : ¬ ("clock" = "weather") := by decide
  have hne' : ¬ ("weather" = "clock") := by decide
  cases hd : s.data k with
  | none => simp [statusBarLoop, hd, segment]
  | some c =>
    by_cases h1 : k = "clock"
    · subst h1
      by_cases hc : 0 < goLen s.config.Popups.Clock
      · have hc2 := hc'.1 hc
        simp only [statusBarLoop, hd, segment, hc, hc2, hne, and_self, true_and, false_and,
          if_true, if_false, indexAt_some _ _ _ hm, bind, Except.bind, clickable,
          String.append_assoc, Option.getD_some, ne_eq, not_false_eq_true]
      · have hc2 : ¬ s.config.Popups.Clock ≠ "" := fun h => hc (hc'.2 h)
        simp only [statusBarLoop, hd, segment, hc, hc2, hne, and_self, true_and, false_and,
          and_false, if_true, if_false, String.append_assoc, Option.getD_some]
    · by_cases h2 : k = "weather"
      · subst h2
        by_cases hw : 0 < goLen s.config.Popups.Weather
        · have hw2 := hw'.1 hw
          simp only [statusBarLoop, hd, segment, hw, hw2, hne', and_self, true_and, false_and,
            if_true, if_false, indexAt_some _ _ _ hm, bind, Except.bind, clickable,
            String.append_assoc, Option.getD_some, ne_eq, not_false_eq_true]
        · have hw2 : ¬ s.config.Popups.Weather ≠ "" := fun h => hw (hw'.2 h)
          simp only [statusBarLoop, hd, segment, hw, hw2, hne', and_self, true_and, false_and,
            and_false, if_true, if_false, String.append_assoc, Option.getD_some]
      · simp only [statusBarLoop, hd, segment, h1, h2, false_and, if_false,
          String.append_assoc, Option.getD_some]

theorem statusBarLoop_eq (s : St) (m : Nat) (mon : monitor) (hm : s.monitors[m]? = some mon)
    (ks : List String) (bar : String) :
    statusBarLoop s (m : Int) ks bar
      = .ok (bar ++ concatAll (ks.filterMap (segment s (m : Int) mon))) := by
  induction ks generalizing bar with
  | nil => simp [statusBarLoop, concatAll]
  | cons k ks ih =>
    rw [statusBarLoop_step s m mon hm, ih]
    cases hseg : segment s (m : Int) mon k with
    | none => simp [List.filterMap_cons, hseg]
    | some x => simp [List.filterMap_cons, hseg, concatAll, String.append_assoc]

theorem userSegment_eq (s : St) (m : Nat) (mon : monitor) (hm : s.monitors[m]? = some mon)
    (bar : String) :
    userSegment s (m : Int) bar = .ok (bar ++ usernameSegment s (m : Int) mon) := by
  by_cases h : 0 < goLen s.config.Popups.User
  · have h' : s.config.Popups.User ≠ "" := (goLen_pos_iff _).1 h
    simp only [userSegment, h, usernameSegment, h', if_true, indexAt_some _ _ _ hm, bind,
      Except.bind, String.append_assoc, ne_eq, not_false_eq_true]
  · have h' : ¬ s.config.Popups.User ≠ "" := fun h2 => h ((goLen_pos_iff _).2 h2)
    simp only [userSegment, h, usernameSegment, h', if_false, String.append_assoc]

theorem statusBarText_eq (s : St) (m : Nat) (mon : monitor) (hm : s.monitors[m]? = some mon) :
    statusBarText s (m : Int) = .ok (statusLine s (m : Int) mon) := by
  simp [statusBarText, statusBarLoop_eq s m mon hm, userSegment_eq s m mon hm, bind, Except.bind,
    statusLine]

theorem resize_synced (f : Nat) (s : St) (h : synced s) : resizeDzenMainBar (f + 1) s = .ok s := by
  rcases h with h | h
  · simp [resizeDzenMainBar, h]
  · simp [resizeDzenMainBar, h]

theorem statusBar_synced (f : Nat) (s : St) (h : synced s) (m : Nat) (mon : monitor)
    (hm : s.monitors[m]? = some mon) :
    statusBar (f + 1) s (m : Int) = .ok (statusLine s (m : Int) mon, s) := by
  simp [statusBar, statusBarWith, statusBarText_eq s m mon hm, resize_synced f s h, bind,
    Except.bind]

/-! ## Draw operations -/

theorem execCount_append (a b : List Event) : execCount (a ++ b) = execCount a + execCount b := by
  induction a with
  | nil => simp [execCount]
  | cons e a ih =>
    cases e
    all_goals simp [execCount, ih]
    all_goals omega

theorem execCount_writeEvents (s : St) (stream : Nat) (text site : String) :
    execCount (writeEvents s stream text site) = 0 := by
  unfold writeEvents
  cases s.writeErr stream text <;> rfl

theorem synced_spawned (s : St) (args : List String) (h : synced s) : synced (spawned s args) := by
  rw [spawned_eq]; exact (synced_upd _ _ _ _ _).2 h

/-- The main-bar draw in a state whose cached width needs no change. -/
theorem drawMain_synced (f : Nat) (s : St) (hs : synced s) (m : Nat) (mon : monitor)
    (hm : s.monitors[m]? = some mon) :
    drawDzenMainBarByMonitor (f + 1) s (m : Int) =
      match s.spawnOutcome s.nextId with
      | .started =>
        if m < s.dzenMainbar.length then
          .ok ((mainHandle s m mon, none),
            s.upd s.mainbarWidth (s.dzenMainbar.set m (mainHandle s m mon)) s.dzenLeftbar
              (s.nextId + 1)
              (s.trace ++ .exec s.nextId (mainBarArgs s m mon) .started ::
                writeEvents s s.nextId (statusLine s m mon ++ "\n") "drawDzenMainBarByMonitor"))
        else .error .panic
      | .pipeFailed err => .ok ((dzenInfo.zero, some err), spawned s (mainBarArgs s m mon))
      | .startFailed err => .ok ((dzenInfo.zero, some err), spawned s (mainBarArgs s m mon)) := by
  have hlt : m < s.monitors.length := by
    rcases Nat.lt_or_ge m s.monitors.length with h | h
    · exact h
    · rw [List.getElem?_eq_none h] at hm; cases hm
  have hr := not_outOfRange s m hlt
  have hsy := synced_spawned s (mainBarArgs s (m : Int) mon) hs
  have hm' : (spawned s (mainBarArgs s (m : Int) mon)).monitors[m]? = some mon := hm
  unfold drawDzenMainBarByMonitor drawDzenMainBarByMonitorWith
  rw [if_neg hr, indexAt_some _ _ _ hm]
  simp only [bind, Except.bind, execDzen]
  cases ho : s.spawnOutcome s.nextId with
  | started =>
    have hst := statusBar_synced f _ hsy m mon hm'
    unfold statusBar at hst
    simp only [hst]
    by_cases hslot : m < s.dzenMainbar.length
    · simp [writeString, wrote_eq, spawned_eq, storeAt_lt _ _ _ hslot, hslot, setMain_eq,
        mainHandle, ho]
      rfl
    · simp [writeString, wrote_eq, spawned_eq, storeAt_ge _ _ _ (Nat.le_of_not_lt hslot), hslot]
  | pipeFailed err => simp
  | startFailed err => simp


/-- The left-bar draw when the launch succeeds. -/
theorem drawLeft_started (s : St) (m : Nat) (mon : monitor) (hm : s.monitors[m]? = some mon)
    (hslot : m < s.dzenLeftbar.length) (ho : s.spawnOutcome s.nextId = .started)
    (text : String) (htext : leftBarContent s (m : Int) = .ok text) :
    drawDzenLeftBarByMonitor s (m : Int) =
      .ok ((leftHandle s m mon, none),
        s.upd s.mainbarWidth s.dzenMainbar (s.dzenLeftbar.set m (leftHandle s m mon))
          (s.nextId + 1)
          (s.trace ++ .exec s.nextId (leftBarArgs s m mon) .started ::
            writeEvents s s.nextId text "drawDzenLeftBarByMonitor")) := by
  have hlt : m < s.monitors.length := by
    rcases Nat.lt_or_ge m s.monitors.length with h | h
    · exact h
    · rw [List.getElem?_eq_none h] at hm; cases hm
  have hr := not_outOfRange s m hlt
  have htext' : leftBarContent (spawned s (leftBarArgs s (m : Int) mon)) (m : Int) = .ok text := htext
  unfold drawDzenLeftBarByMonitor
  rw [if_neg hr, indexAt_some _ _ _ hm]
  simp only [bind, Except.bind, execDzen, ho, htext']
  simp [writeString, wrote_eq, spawned_eq, storeAt_lt _ _ _ hslot, setLeft_eq, leftHandle, ho]
  rfl

theorem leftBarContent_ok (s : St) (m : Nat) (mon : monitor) (hm : s.monitors[m]? = some mon) :
    ∃ text, leftBarContent s (m : Int) = .ok text := by
  unfold leftBarContent
  by_cases h : 0 < goLen s.config.Popups.Info
  · simp [h, indexAt_some _ _ _ hm, bind, Except.bind]
  · simp [h]

theorem monitors_lt_of_getElem (s : St) (m : Nat) (mon : monitor)
    (hm : s.monitors[m]? = some mon) : m < s.monitors.length := by
  rcases Nat.lt_or_ge m s.monitors.length with h | h
  · exact h
  · rw [List.getElem?_eq_none h] at hm; cases hm

/-- Summary of the synced main-bar draw when the slot exists. -/
theorem drawMain_synced_post (s : St) (hs : synced s) (m : Nat) (mon : monitor)
    (hm : s.monitors[m]? = some mon) (hslot : m < s.dzenMainbar.length) :
    ∃ res M1 T1,
      (∀ f, drawDzenMainBarByMonitorWith (resizeDzenMainBar (f + 1)) s (m : Int)
        = .ok (res, s.upd s.mainbarWidth M1 s.dzenLeftbar (s.nextId + 1) (s.trace ++ T1)))
      ∧ M1.length = s.dzenMainbar.length ∧ execCount T1 = 1 := by
  have h := fun f => drawMain_synced f s hs m mon hm
  unfold drawDzenMainBarByMonitor at h
  cases ho : s.spawnOutcome s.nextId with
  | started =>
    refine ⟨(mainHandle s m mon, none), s.dzenMainbar.set m (mainHandle s m mon),
      .exec s.nextId (mainBarArgs s m mon) .started ::
        writeEvents s s.nextId (statusLine s m mon ++ "\n") "drawDzenMainBarByMonitor",
      fun f => ?_, ?_, ?_⟩
    · rw [h f, ho]; simp only [hslot, if_true]
    · simp
    · simp [execCount, execCount_writeEvents]
  | pipeFailed err =>
    refine ⟨(dzenInfo.zero, some err), s.dzenMainbar,
      [.exec s.nextId (mainBarArgs s m mon) (.pipeFailed err)], fun f => ?_, rfl, ?_⟩
    · rw [h f, ho]; simp only [spawned_eq, ho]
    · simp [execCount]
  | startFailed err =>
    refine ⟨(dzenInfo.zero, some err), s.dzenMainbar,
      [.exec s.nextId (mainBarArgs s m mon) (.startFailed err)], fun f => ?_, rfl, ?_⟩
    · rw [h f, ho]; simp only [spawned_eq, ho]
    · simp [execCount]

/-- The respawn loop in a state whose cached width needs no change. -/
theorem drawLoop_synced (n : Nat) : ∀ (i : Nat) (s : St), synced s →
    i + n ≤ s.monitors.length →
    ∃ r : Except Stop St,
      (∀ f, drawDzenMainBarLoop (resizeDzenMainBar (f + 1)) n i s = r) ∧
      ((∃ M T, r = .ok (s.upd s.mainbarWidth M s.dzenLeftbar (s.nextId + n) (s.trace ++ T))
          ∧ M.length = s.dzenMainbar.length ∧ execCount T = n)
        ∨ (r = .error .panic ∧ s.dzenMainbar.length < i + n)) := by
  induction n with
  | zero =>
    intro i s _ _
    refine ⟨.ok s, fun f => rfl, Or.inl ⟨s.dzenMainbar, [], ?_, rfl, rfl⟩⟩
    simp [upd_self]
  | succ n ih =>
    intro i s hs hin
    by_cases hi : i < s.dzenMainbar.length
    · have hmon : ∃ mon, s.monitors[i]? = some mon :=
        ⟨s.monitors[i], List.getElem?_eq_getElem (by omega)⟩
      obtain ⟨mon, hm⟩ := hmon
      have hold : s.dzenMainbar[i]? = some s.dzenMainbar[i] := List.getElem?_eq_getElem hi
      obtain ⟨res, M1, T1, hdraw, hM1, hT1⟩ := drawMain_synced_post s hs i mon hm hi
      -- the state after the iteration, with or without the scheduled close
      have hstep : ∃ T2, (if res.2 = none then
            emit (s.upd s.mainbarWidth M1 s.dzenLeftbar (s.nextId + 1) (s.trace ++ T1))
              .goClose
          else s.upd s.mainbarWidth M1 s.dzenLeftbar (s.nextId + 1) (s.trace ++ T1))
            = s.upd s.mainbarWidth M1 s.dzenLeftbar (s.nextId + 1) (s.trace ++ T2)
          ∧ execCount T2 = 1 := by
        by_cases hres : res.2 = none
        · refine ⟨T1 ++ [.goClose], ?_, ?_⟩
          · simp [hres, emit_eq]
          · simp [execCount_append, hT1, execCount]
        · exact ⟨T1, by simp [hres], hT1⟩
      obtain ⟨T2, hs2, hT2⟩ := hstep
      have hsy2 : synced (s.upd s.mainbarWidth M1 s.dzenLeftbar (s.nextId + 1) (s.trace ++ T2)) :=
        (synced_upd _ _ _ _ _).2 hs
      obtain ⟨r, hr, hpost⟩ := ih (i + 1) _ hsy2 (by simp; omega)
      refine ⟨r, fun f => ?_, ?_⟩
      · rw [← hr f]
        simp only [drawDzenMainBarLoop, indexAt_some _ _ _ hold, hdraw f, bind, Except.bind, hs2]
      · rcases hpost with ⟨M, T, hrr, hM, hT⟩ | ⟨hrr, hlen⟩
        · refine Or.inl ⟨M, T2 ++ T, ?_, ?_, ?_⟩
          · rw [hrr]; simp [Nat.add_assoc, Nat.add_comm 1 n]
          · simpa [hM1] using hM
          · simp [execCount_append, hT, hT2]; omega
        · refine Or.inr ⟨hrr, ?_⟩
          simp [hM1] at hlen; omega
    · refine ⟨.error .panic, fun f => ?_, Or.inr ⟨rfl, by omega⟩⟩
      have hnone : s.dzenMainbar[i]? = none := List.getElem?_eq_none (Nat.le_of_not_lt hi)
      simp only [drawDzenMainBarLoop, indexAt_none _ _ hnone, bind, Except.bind]

theorem resize_succ (f : Nat) (s : St) :
    resizeDzenMainBar (f + 1) s =
      if s.contiguousBar then .ok s
      else if scaleByMagic (statusBarLen s) ≠ s.mainbarWidth then
        drawDzenMainBarLoop (resizeDzenMainBar f) s.monitors.length 0
          (s.upd (scaleByMagic (statusBarLen s)) s.dzenMainbar s.dzenLeftbar s.nextId s.trace)
      else .ok s := rfl

/-- The width that `resizeDzenMainBar` leaves in the cache. -/
theorem resize_post (s : St) :
    ∃ r : Except Stop St,
      (∀ f, resizeDzenMainBar (f + 2) s = r) ∧
      ((∃ M T, r = .ok (s.upd (if s.contiguousBar then s.mainbarWidth
                                else scaleByMagic (statusBarLen s))
                          M s.dzenLeftbar (s.nextId + execCount T) (s.trace ++ T))
          ∧ M.length = s.dzenMainbar.length
          ∧ (synced s → M = s.dzenMainbar ∧ T = [])
          ∧ (¬ synced s → execCount T = s.monitors.length))
        ∨ (r = .error .panic ∧ s.dzenMainbar.length < s.monitors.length ∧ ¬ synced s)) := by
  by_cases hs : synced s
  · refine ⟨.ok s, fun f => resize_synced (f + 1) s hs, Or.inl ⟨s.dzenMainbar, [], ?_, rfl,
      fun _ => ⟨rfl, rfl⟩, fun h => absurd hs h⟩⟩
    rcases hs with hc | hw
    · simp [hc, execCount, upd_self]
    · by_cases hc : s.contiguousBar = true
      · simp [hc, execCount, upd_self]
      · simp [hc, hw, execCount, upd_self]
  · have hc : s.contiguousBar = false := by
      cases h : s.contiguousBar with
      | true => exact absurd (Or.inl h) hs
      | false => rfl
    have hne : scaleByMagic (statusBarLen s) ≠ s.mainbarWidth := fun h => hs (Or.inr h)
    have hsy : synced (s.upd (scaleByMagic (statusBarLen s)) s.dzenMainbar s.dzenLeftbar s.nextId
        s.trace) := synced_setWidth _ _ _ _ _
    obtain ⟨r, hr, hpost⟩ := drawLoop_synced s.monitors.length 0 _ hsy (by simp)
    refine ⟨r, fun f => ?_, ?_⟩
    · rw [← hr f, resize_succ, hc, if_neg (by simp), if_pos hne]
    · rcases hpost with ⟨M, T, hrr, hM, hT⟩ | ⟨hrr, hlen⟩
      · refine Or.inl ⟨M, T, ?_, by simpa using hM, fun h => absurd h hs, fun _ => hT⟩
        rw [hrr]; simp [hc, hT]
      · exact Or.inr ⟨hrr, by simpa using hlen, hs⟩

theorem resize_ok (s : St) (hslots : s.monitors.length ≤ s.dzenMainbar.length) (f : Nat) :
    ∃ M T, resizeDzenMainBar (f + 2) s
        = .ok (s.upd (if s.contiguousBar then s.mainbarWidth else scaleByMagic (statusBarLen s))
                M s.dzenLeftbar (s.nextId + execCount T) (s.trace ++ T))
      ∧ M.length = s.dzenMainbar.length
      ∧ (synced s → M = s.dzenMainbar ∧ T = [])
      ∧ (¬ synced s → execCount T = s.monitors.length) := by
  obtain ⟨r, hr, hpost⟩ := resize_post s
  rcases hpost with ⟨M, T, hrr, hrest⟩ | ⟨_, hlen, _⟩
  · exact ⟨M, T, by rw [hr f, hrr], hrest⟩
  · omega

/-- The main-bar draw in any state with one slot per monitor. -/
theorem drawMain_general (f : Nat) (s : St) (m : Nat) (mon : monitor)
    (hm : s.monitors[m]? = some mon) (hslots : s.monitors.length ≤ s.dzenMainbar.length) :
    ∃ res s1 T,
      drawDzenMainBarByMonitor (f + 2) s (m : Int) = .ok (res, s1)
      ∧ s1.trace = s.trace ++ .exec s.nextId (mainBarArgs s m mon) (s.spawnOutcome s.nextId) :: T
      ∧ s1.dzenMainbar.length = s.dzenMainbar.length
      ∧ (s.spawnOutcome s.nextId = .started →
          res = (mainHandle s m mon, none) ∧ s1.dzenMainbar[m]? = some (mainHandle s m mon))
      ∧ (s.spawnOutcome s.nextId ≠ .started → res.2 ≠ none ∧ T = []
          ∧ s1.dzenMainbar = s.dzenMainbar) := by
  have hlt := monitors_lt_of_getElem s m mon hm
  have hr := not_outOfRange s m hlt
  have hm' : (spawned s (mainBarArgs s (m : Int) mon)).monitors[m]? = some mon := hm
  unfold drawDzenMainBarByMonitor drawDzenMainBarByMonitorWith
  rw [if_neg hr, indexAt_some _ _ _ hm]
  simp only [bind, Except.bind, execDzen]
  cases ho : s.spawnOutcome s.nextId with
  | started =>
    obtain ⟨M, T, hrz, hM, -, -⟩ := resize_ok (spawned s (mainBarArgs s (m : Int) mon))
      (by simpa [spawned_eq] using hslots) f
    have hslot : m < M.length := by
      rw [hM]; simp only [spawned_eq, upd_dzenMainbar]; omega
    simp only [statusBarWith, statusBarText_eq _ m mon hm', hrz, bind, Except.bind, writeString,
      wrote_eq, upd_dzenMainbar, storeAt_lt _ _ _ hslot, setMain_eq, upd_upd]
    refine ⟨_, _, T ++ writeEvents s s.nextId (statusLine s (m : Int) mon ++ "\n")
      "drawDzenMainBarByMonitor", rfl, ?_, ?_, ?_, ?_⟩
    · simp [spawned_eq, ho]
    · simp only [upd_dzenMainbar, List.length_set, hM, spawned_eq]
    · intro _
      refine ⟨?_, ?_⟩
      · simp [mainHandle, spawned_eq]
      · simp [mainHandle, spawned_eq, List.getElem?_set, hslot]
    · intro h; exact absurd rfl h
  | pipeFailed err =>
    refine ⟨(dzenInfo.zero, some err), spawned s (mainBarArgs s (m : Int) mon), [], rfl,
      ?_, ?_, ?_, ?_⟩
    · simp [spawned_eq, ho]
    · simp [spawned_eq]
    · intro h; cases h
    · intro _; simp [spawned_eq]
  | startFailed err =>
    refine ⟨(dzenInfo.zero, some err), spawned s (mainBarArgs s (m : Int) mon), [], rfl,
      ?_, ?_, ?_, ?_⟩
    · simp [spawned_eq, ho]
    · simp [spawned_eq]
    · intro h; cases h
    · intro _; simp [spawned_eq]

/-! ## Close, draw and toggle by monitor -/

theorem writesOf_append (a b : List Event) : writesOf (a ++ b) = writesOf a ++ writesOf b := by
  induction a with
  | nil => simp [writesOf]
  | cons e a ih =>
    cases e
    all_goals simp [writesOf, ih]

theorem writesOf_writeEvents (s : St) (stream : Nat) (text site : String) :
    writesOf (writeEvents s stream text site) = [text] := by
  unfold writeEvents
  cases s.writeErr stream text <;> rfl

theorem lt_of_getElem_some {α : Type} (xs : List α) (m : Nat) (x : α) (h : xs[m]? = some x) :
    m < xs.length := by
  rcases Nat.lt_or_ge m xs.length with h1 | h1
  · exact h1
  · rw [List.getElem?_eq_none h1] at h; cases h

/-- Closing both bars of a monitor whose handles are running and whose closes succeed. -/
theorem closeByMonitor_visible (s : St) (m : Nat) (lh mh : dzenInfo) (ls lp ms mp : Nat)
    (hL : s.dzenLeftbar[m]? = some lh) (hM : s.dzenMainbar[m]? = some mh)
    (hls : lh.stdin = some ls) (hlp : lh.cmd = some lp)
    (hms : mh.stdin = some ms) (hmp : mh.cmd = some mp)
    (hcl : s.closeErr ls = none) (hcm : s.closeErr ms = none) :
    ∃ T, closeDzenByMonitor s (m : Int)
        = .ok (s.upd s.mainbarWidth (s.dzenMainbar.set m { mh with hidden := true })
            (s.dzenLeftbar.set m { lh with hidden := true }) s.nextId (s.trace ++ T))
      ∧ execCount T = 0 ∧ writesOf T = [] := by
  have hl1 := lt_of_getElem_some _ _ _ hL
  have hm1 := lt_of_getElem_some _ _ _ hM
  unfold closeDzenByMonitor
  cases hw1 : s.waitErr lp <;> cases hw2 : s.waitErr mp <;>
    simp [indexAt_some _ _ _ hL, indexAt_some _ _ _ hM, bind, Except.bind, closeDzenBar, hls,
      hlp, hms, hmp, hcl, hcm, hw1, hw2, emit_eq, storeAt_lt _ _ _ hl1, storeAt_lt _ _ _ hm1,
      setLeft_eq, setMain_eq] <;>
    exact ⟨_, rfl, rfl, rfl⟩

/-- Drawing both bars of a monitor in a state whose cached width needs no change, when
both launches succeed. -/
theorem drawByMonitor_synced (f : Nat) (s : St) (hs : synced s) (m : Nat) (mon : monitor)
    (hm : s.monitors[m]? = some mon) (hL : m < s.dzenLeftbar.length)
    (hM : m < s.dzenMainbar.length) (ho1 : s.spawnOutcome s.nextId = .started)
    (ho2 : s.spawnOutcome (s.nextId + 1) = .started) :
    ∃ textL T, leftBarContent s (m : Int) = .ok textL
      ∧ drawDzenByMonitor (f + 1) s (m : Int)
        = .ok (s.upd s.mainbarWidth
            (s.dzenMainbar.set m
              { name := "main bar, monitor " ++ fmtInt m, cmd := some (s.nextId + 1),
                args := mainBarArgs s m mon, stdin := some (s.nextId + 1), hidden := false })
            (s.dzenLeftbar.set m (leftHandle s m mon)) (s.nextId + 2) (s.trace ++ T))
      ∧ writesOf T = [textL, statusLine s (m : Int) mon ++ "\n"] ∧ execCount T = 2 := by
  obtain ⟨textL, htext⟩ := leftBarContent_ok s m mon hm
  have hleft := drawLeft_started s m mon hm hL ho1 textL htext
  have hmain := drawMain_synced f _ ((synced_upd s s.dzenMainbar
      (s.dzenLeftbar.set m (leftHandle s m mon)) (s.nextId + 1)
      (s.trace ++ .exec s.nextId (leftBarArgs s m mon) .started ::
            writeEvents s s.nextId textL "drawDzenLeftBarByMonitor")).2 hs) m mon hm
  simp only [upd_spawnOutcome, upd_nextId, ho2, upd_dzenMainbar, hM, if_true, upd_mainbarWidth,
    upd_dzenLeftbar, upd_trace, upd_upd, writeEvents_upd, statusLine_upd, mainBarArgs_upd,
    mainHandle] at hmain
  refine ⟨textL, (.exec s.nextId (leftBarArgs s m mon) .started ::
      writeEvents s s.nextId textL "drawDzenLeftBarByMonitor") ++
      .exec (s.nextId + 1) (mainBarArgs s m mon) .started ::
        writeEvents s (s.nextId + 1) (statusLine s (m : Int) mon ++ "\n")
          "drawDzenMainBarByMonitor", htext, ?_, ?_, ?_⟩
  · simp only [drawDzenByMonitor, hleft, bind, Except.bind, hmain, List.append_assoc]
  · simp [writesOf_append, writesOf, writesOf_writeEvents]
  · simp [execCount_append, execCount, execCount_writeEvents]

theorem toggle_visible (f : Nat) (s : St) (m : Nat) (lh : dzenInfo)
    (hL : s.dzenLeftbar[m]? = some lh) (hv : lh.hidden = false) :
    toggleBars f s (m : Int) = closeDzenByMonitor s (m : Int) := by
  simp [toggleBars, indexAt_some _ _ _ hL, bind, Except.bind, hv]

theorem toggle_hidden (f : Nat) (s : St) (m : Nat) (lh : dzenInfo)
    (hL : s.dzenLeftbar[m]? = some lh) (hv : lh.hidden = true) :
    toggleBars f s (m : Int) = drawDzenByMonitor f s (m : Int) := by
  simp [toggleBars, indexAt_some _ _ _ hL, bind, Except.bind, hv]

/-- The first toggle of a monitor whose bars are running and visible. -/
theorem toggle_first (f : Nat) (s : St) (m : Nat) (lh mh : dzenInfo) (ls lp ms mp : Nat)
    (hL : s.dzenLeftbar[m]? = some lh) (hM : s.dzenMainbar[m]? = some mh)
    (hls : lh.stdin = some ls) (hlp : lh.cmd = some lp) (hlv : lh.hidden = false)
    (hms : mh.stdin = some ms) (hmp : mh.cmd = some mp)
    (hcl : s.closeErr ls = none) (hcm : s.closeErr ms = none) :
    ∃ s2 T, toggleBars f s (m : Int) = .ok s2
      ∧ s2 = s.upd s.mainbarWidth (s.dzenMainbar.set m { mh with hidden := true })
            (s.dzenLeftbar.set m { lh with hidden := true }) s.nextId (s.trace ++ T)
      ∧ execCount T = 0 ∧ writesOf T = [] := by
  obtain ⟨T, h, h1, h2⟩ := closeByMonitor_visible s m lh mh ls lp ms mp hL hM hls hlp hms hmp
    hcl hcm
  exact ⟨_, T, (toggle_visible f s m lh hL hlv).trans h, rfl, h1, h2⟩

/-- The scenario draw, toggle, toggle from a state whose cached width needs no change. -/
theorem toggle_scenario (f : Nat) (m : Nat) (mon : monitor) (s0 : St) (hs : synced s0)
    (hm : s0.monitors[m]? = some mon) (hL : m < s0.dzenLeftbar.length)
    (hM : m < s0.dzenMainbar.length)
    (hsp : ∀ k, k < 4 → s0.spawnOutcome (s0.nextId + k) = .started)
    (hc0 : s0.closeErr s0.nextId = none) (hc1 : s0.closeErr (s0.nextId + 1) = none) :
    ∃ textL T1 T2 T3,
      drawDzenByMonitor (f + 1) s0 (m : Int)
        = .ok (s0.upd s0.mainbarWidth
            (s0.dzenMainbar.set m
              { name := "main bar, monitor " ++ fmtInt m, cmd := some (s0.nextId + 1),
                args := mainBarArgs s0 m mon, stdin := some (s0.nextId + 1), hidden := false })
            (s0.dzenLeftbar.set m (leftHandle s0 m mon)) (s0.nextId + 2) (s0.trace ++ T1))
      ∧ toggleBars (f + 1) (s0.upd s0.mainbarWidth
            (s0.dzenMainbar.set m
              { name := "main bar, monitor " ++ fmtInt m, cmd := some (s0.nextId + 1),
                args := mainBarArgs s0 m mon, stdin := some (s0.nextId + 1), hidden := false })
            (s0.dzenLeftbar.set m (leftHandle s0 m mon)) (s0.nextId + 2) (s0.trace ++ T1))
          (m : Int)
        = .ok (s0.upd s0.mainbarWidth
            (s0.dzenMainbar.set m
              { name := "main bar, monitor " ++ fmtInt m, cmd := some (s0.nextId + 1),
                args := mainBarArgs s0 m mon, stdin := some (s0.nextId + 1), hidden := true })
            (s0.dzenLeftbar.set m { leftHandle s0 m mon with hidden := true }) (s0.nextId + 2)
            (s0.trace ++ T1 ++ T2))
      ∧ toggleBars (f + 1) (s0.upd s0.mainbarWidth
            (s0.dzenMainbar.set m
              { name := "main bar, monitor " ++ fmtInt m, cmd := some (s0.nextId + 1),
                args := mainBarArgs s0 m mon, stdin := some (s0.nextId + 1), hidden := true })
            (s0.dzenLeftbar.set m { leftHandle s0 m mon with hidden := true }) (s0.nextId + 2)
            (s0.trace ++ T1 ++ T2))
          (m : Int)
        = .ok (s0.upd s0.mainbarWidth
            (s0.dzenMainbar.set m
              { name := "main bar, monitor " ++ fmtInt m, cmd := some (s0.nextId + 3),
                args := mainBarArgs s0 m mon, stdin := some (s0.nextId + 3), hidden := false })
            (s0.dzenLeftbar.set m
              { name := "left bar, monitor " ++ fmtInt m, cmd := some (s0.nextId + 2),
                args := leftBarArgs s0 m mon, stdin := some (s0.nextId + 2), hidden := false })
            (s0.nextId + 4) (s0.trace ++ T1 ++ T2 ++ T3))
      ∧ writesOf T1 = [textL, statusLine s0 (m : Int) mon ++ "\n"] ∧ execCount T1 = 2
      ∧ writesOf T2 = [] ∧ execCount T2 = 0
      ∧ writesOf T3 = [textL, statusLine s0 (m : Int) mon ++ "\n"] ∧ execCount T3 = 2 := by
  obtain ⟨textL, T1, htext, hdraw, hw1, he1⟩ :=
    drawByMonitor_synced f s0 hs m mon hm hL hM (hsp 0 (by omega)) (hsp 1 (by omega))
  -- first toggle
  obtain ⟨s2, T2, ht1, hs2, he2, hw2⟩ := toggle_first (f + 1)
    (s0.upd s0.mainbarWidth
      (s0.dzenMainbar.set m
        { name := "main bar, monitor " ++ fmtInt m, cmd := some (s0.nextId + 1),
          args := mainBarArgs s0 m mon, stdin := some (s0.nextId + 1), hidden := false })
      (s0.dzenLeftbar.set m (leftHandle s0 m mon)) (s0.nextId + 2) (s0.trace ++ T1))
    m (leftHandle s0 m mon)
    { name := "main bar, monitor " ++ fmtInt m, cmd := some (s0.nextId + 1),
      args := mainBarArgs s0 m mon, stdin := some (s0.nextId + 1), hidden := false }
    s0.nextId s0.nextId (s0.nextId + 1) (s0.nextId + 1)
    (by simp [List.getElem?_set, hL]) (by simp [List.getElem?_set, hM])
    rfl rfl rfl rfl rfl hc0 hc1
  simp only [upd_upd, upd_mainbarWidth, upd_dzenMainbar, upd_dzenLeftbar, upd_nextId, upd_trace,
    List.set_set] at hs2
  subst hs2
  -- second toggle
  have hsy2 : synced (s0.upd s0.mainbarWidth
      (s0.dzenMainbar.set m
        { name := "main bar, monitor " ++ fmtInt m, cmd := some (s0.nextId + 1),
          args := mainBarArgs s0 m mon, stdin := some (s0.nextId + 1), hidden := true })
      (s0.dzenLeftbar.set m { leftHandle s0 m mon with hidden := true }) (s0.nextId + 2)
      (s0.trace ++ T1 ++ T2)) := (synced_upd _ _ _ _ _).2 hs
  obtain ⟨textL3, T3, htext3, hdraw3, hw3, he3⟩ := drawByMonitor_synced f _ hsy2 m mon hm
    (by simpa using hL) (by simpa using hM) (by simpa using hsp 2 (by omega))
    (by simpa [Nat.add_assoc] using hsp 3 (by omega))
  have htl : textL3 = textL := by
    rw [leftBarContent_upd, htext] at htext3
    cases htext3; rfl
  subst htl
  have ht2 := toggle_hidden (f + 1) _ m { leftHandle s0 m mon with hidden := true }
    (show (s0.upd s0.mainbarWidth
      (s0.dzenMainbar.set m
        { name := "main bar, monitor " ++ fmtInt m, cmd := some (s0.nextId + 1),
          args := mainBarArgs s0 m mon, stdin := some (s0.nextId + 1), hidden := true })
      (s0.dzenLeftbar.set m { leftHandle s0 m mon with hidden := true }) (s0.nextId + 2)
      (s0.trace ++ T1 ++ T2)).dzenLeftbar[m]? = _ by simp [List.getElem?_set, hL]) rfl
  refine ⟨textL3, T1, T2, T3, hdraw, ?_, ?_, hw1, he1, hw2, he2, ?_, he3⟩
  · rw [ht1]
  · rw [ht2, hdraw3]
    simp only [upd_upd, upd_mainbarWidth, upd_dzenMainbar, upd_dzenLeftbar, upd_nextId,
      upd_trace, List.set_set, leftHandle, leftBarArgs_upd, mainBarArgs_upd, Nat.add_assoc]
  · rw [hw3, statusLine_upd]

/-! ## Update loop -/

theorem execCount_updateEvents (s : St) (n : Nat) : ∀ i, execCount (updateEvents s n i) = 0 := by
  induction n with
  | zero => intro i; rfl
  | succ n ih =>
    intro i
    simp only [updateEvents, execCount_append, ih]
    cases h1 : s.dzenMainbar[i]? with
    | none => rfl
    | some slot =>
      cases h2 : s.monitors[i]? with
      | none => rfl
      | some mon =>
        cases h3 : slot.stdin with
        | none => simp [h3, execCount]
        | some stream => simp [h3, execCount_writeEvents]

/-- The update loop in a state whose cached width needs no change. -/
theorem updateLoop_synced (f : Nat) (s : St) (hs : synced s)
    (hstreams : ∀ slot ∈ s.dzenMainbar, slot.stdin ≠ none)
    (hlen : s.dzenMainbar.length ≤ s.monitors.length) (n : Nat) :
    ∀ (i : Nat) (T : List Event), i + n ≤ s.dzenMainbar.length →
      updateStatusBarLoop (f + 1) n i
          (s.upd s.mainbarWidth s.dzenMainbar s.dzenLeftbar s.nextId T)
        = .ok (s.upd s.mainbarWidth s.dzenMainbar s.dzenLeftbar s.nextId
            (T ++ updateEvents s n i)) := by
  induction n with
  | zero => intro i T _; simp [updateStatusBarLoop, updateEvents]
  | succ n ih =>
    intro i T hin
    have hi : i < s.dzenMainbar.length := by omega
    have hslot : s.dzenMainbar[i]? = some s.dzenMainbar[i] := List.getElem?_eq_getElem hi
    have hmon : s.monitors[i]? = some s.monitors[i] := List.getElem?_eq_getElem (by omega)
    obtain ⟨stream, hstream⟩ : ∃ stream, (s.dzenMainbar[i]).stdin = some stream := by
      have := hstreams _ (List.getElem_mem hi)
      cases h : (s.dzenMainbar[i]).stdin with
      | none => exact absurd h this
      | some st => exact ⟨st, rfl⟩
    have hsy : synced (s.upd s.mainbarWidth s.dzenMainbar s.dzenLeftbar s.nextId T) :=
      (synced_upd _ _ _ _ _).2 hs
    have hst := statusBar_synced f _ hsy i _
      (show (s.upd s.mainbarWidth s.dzenMainbar s.dzenLeftbar s.nextId T).monitors[i]? = _
        from hmon)
    have hcond : ((i : Int) < (s.dzenMainbar.length : Int)) := by omega
    simp only [updateStatusBarLoop, if_pos hcond, hst, bind, Except.bind, upd_dzenMainbar,
      indexAt_some _ _ _ hslot, hstream, writeString, wrote_eq, upd_upd, upd_mainbarWidth,
      upd_dzenLeftbar, upd_nextId, upd_trace, writeEvents_upd, statusLine_upd]
    rw [ih (i + 1) _ (by omega)]
    simp only [updateEvents, hslot, hmon, hstream, List.append_assoc]


/-! ## Long texts -/

theorem goLen_filler (n : Nat) : goLen (filler n) = (n : Int) := by
  have h : ∀ k : Nat, String.utf8Len (List.replicate k 'x') = k := by
    intro k
    induction k with
    | zero => rfl
    | succ k ih =>
      rw [List.replicate_succ, String.utf8Len_cons, ih]
      rfl
  show ((String.utf8Len (List.replicate n 'x') : Nat) : Int) = n
  rw [h]

theorem statusBarLen_exLongText : statusBarLen exLongText = 1118485 := by
  have h0 : goLen "" = 0 := by decide
  rw [statusBarLen_eq_plainLen]
  simp [plainLen, exLongText, exState, metricLen, goLen_filler, h0]


theorem mainBarArgs_eq_argv (s : St) (m : Int) (mon : monitor) :
    mainBarArgs s m mon = mainBarArgv s m (mainBarGeometry s mon) := by
  cases hc : s.contiguousBar <;> cases ht : s.isTopBar <;>
    simp [mainBarArgs, mainBarArgv, mainBarGeometry, hc, ht]


theorem drawMain_error_keeps (fuel : Nat) (s : St) (monitor : Int) (res : dzenInfo × Option GoError)
    (s1 : St) (h : drawDzenMainBarByMonitor fuel s monitor = .ok (res, s1)) (hres : res.2 ≠ none) :
    s1.dzenMainbar = s.dzenMainbar ∧ s1.dzenLeftbar = s.dzenLeftbar := by
  unfold drawDzenMainBarByMonitor drawDzenMainBarByMonitorWith at h
  split at h
  · cases h; exact ⟨rfl, rfl⟩
  · simp only [bind, Except.bind] at h
    split at h
    · cases h
    · simp only [execDzen] at h
      cases ho : s.spawnOutcome s.nextId with
      | started =>
        simp only [ho] at h
        split at h
        · cases h
        · split at h
          · cases h
          · split at h
            · cases h
            · cases h; exact absurd rfl hres
      | pipeFailed err => simp only [ho] at h; cases h; exact ⟨rfl, rfl⟩
      | startFailed err => simp only [ho] at h; cases h; exact ⟨rfl, rfl⟩

theorem drawLeft_error_keeps (s : St) (monitor : Int) (res : dzenInfo × Option GoError)
    (s1 : St) (h : drawDzenLeftBarByMonitor s monitor = .ok (res, s1)) (hres : res.2 ≠ none) :
    s1.dzenMainbar = s.dzenMainbar ∧ s1.dzenLeftbar = s.dzenLeftbar := by
  unfold drawDzenLeftBarByMonitor at h
  split at h
  · cases h; exact ⟨rfl, rfl⟩
  · simp only [bind, Except.bind] at h
    split at h
    · cases h
    · simp only [execDzen] at h
      cases ho : s.spawnOutcome s.nextId with
      | started =>
        simp only [ho] at h
        split at h
        · cases h
        · split at h
          · cases h
          · split at h
            · cases h
            · cases h; exact absurd rfl hres
      | pipeFailed err => simp only [ho] at h; cases h; exact ⟨rfl, rfl⟩
      | startFailed err => simp only [ho] at h; cases h; exact ⟨rfl, rfl⟩


/-! # The claims -/

/-- C1: for an in-range monitor, `drawDzenMainBarByMonitor` launches the renderer with
`-x`, `-y`, `-w`, `-h` equal to the stated geometry (contiguous: `x = leftBarWidth`,
`width = monitor.width - leftBarWidth`; otherwise `x = monitor.width - mainbarWidth - 1`,
`width = mainbarWidth`, so `x + width = monitor.width - 1`; `y = 0` on top and
`monitor.height - barHeight` otherwise; `height = barHeight`), and a successful draw
returns and installs a handle with that argument vector. -/
theorem drawDzenMainBarByMonitor_geometry (f : Nat) (s : St) (m : Nat) (mon : monitor)
    (hm : s.monitors[m]? = some mon) :
    (∀ fuel res s1, drawDzenMainBarByMonitor fuel s (m : Int) = .ok (res, s1) → res.2 = none →
        res.1.args = mainBarArgv s m (mainBarGeometry s mon)) ∧
    (s.monitors.length ≤ s.dzenMainbar.length →
      ∃ res s1 T,
        drawDzenMainBarByMonitor (f + 2) s (m : Int) = .ok (res, s1)
        ∧ s1.trace = s.trace ++
            .exec s.nextId (mainBarArgv s m (mainBarGeometry s mon)) (s.spawnOutcome s.nextId) :: T
        ∧ (s.spawnOutcome s.nextId = .started →
            res.2 = none ∧ res.1.args = mainBarArgv s m (mainBarGeometry s mon)
            ∧ s1.dzenMainbar[m]? = some res.1)) ∧
    (s.contiguousBar = true →
      (mainBarGeometry s mon).x = s.leftBarWidth
      ∧ (mainBarGeometry s mon).width = mon.width - s.leftBarWidth) ∧
    (s.contiguousBar = false →
      (mainBarGeometry s mon).x = mon.width - s.mainbarWidth - 1
      ∧ (mainBarGeometry s mon).width = s.mainbarWidth
      ∧ (mainBarGeometry s mon).x + (mainBarGeometry s mon).width = mon.width - 1) ∧
    (mainBarGeometry s mon).y = (if s.isTopBar then 0 else mon.height - s.barHeight) ∧
    (mainBarGeometry s mon).height = s.barHeight := by
  refine ⟨?_, ?_, ?_, ?_, rfl, rfl⟩
  · intro fuel res s1 h hres
    have hlt := monitors_lt_of_getElem s m mon hm
    have hr := not_outOfRange s m hlt
    unfold drawDzenMainBarByMonitor drawDzenMainBarByMonitorWith at h
    rw [if_neg hr, indexAt_some _ _ _ hm] at h
    simp only [bind, Except.bind, execDzen] at h
    cases ho : s.spawnOutcome s.nextId with
    | started =>
      simp only [ho] at h
      split at h
      · cases h
      · rename_i v hv
        split at h
        · cases h
        · split at h
          · cases h
          · cases h
            exact mainBarArgs_eq_argv s m mon
    | pipeFailed err => simp only [ho] at h; cases h; cases hres
    | startFailed err => simp only [ho] at h; cases h; cases hres
  · intro hslots
    obtain ⟨res, s1, T, h1, h2, _, h4, _⟩ := drawMain_general f s m mon hm hslots
    refine ⟨res, s1, T, h1, ?_, ?_⟩
    · rw [h2, mainBarArgs_eq_argv]
    · intro ho
      obtain ⟨hres, hslot⟩ := h4 ho
      subst hres
      exact ⟨rfl, mainBarArgs_eq_argv s m mon, hslot⟩
  · intro hc; simp [mainBarGeometry, hc]; try omega
  · intro hc; simp [mainBarGeometry, hc]; try omega

theorem drawDzenMainBarByMonitor_geometry_witness :
    ∃ res s1 T,
      drawDzenMainBarByMonitor 2 exState 0 = .ok (res, s1)
      ∧ s1.trace = .exec 0 ["-xs", "1", "-ta", "r", "-fn", "fixed", "-x", "200", "-y", "0", "-w",
          "1720", "-h", "15", "-bg", "#000", "-fg", "#aaa", "-e", "button2=;"] .started :: T
      ∧ res.1.args = ["-xs", "1", "-ta", "r", "-fn", "fixed", "-x", "200", "-y", "0", "-w",
          "1720", "-h", "15", "-bg", "#000", "-fg", "#aaa", "-e", "button2=;"] := by
  obtain ⟨res, s1, T, h1, h2, h3⟩ :=
    (drawDzenMainBarByMonitor_geometry 0 exState 0 { width := 1920, height := 1080 } rfl).2.1
      (by decide)
  exact ⟨res, s1, T, h1, h2, (h3 rfl).2.1⟩

/-- C2: after `updateDzenConfig` the cached layout fields are the configuration with
its defaults: `contiguousBar` is true for the empty string and false exactly for a non-empty
string other than "yes"; `barHeight` is `Height` when positive and `15` otherwise;
`leftBarWidth` is `LeftBarWidth` when positive and `0` otherwise; `isTopBar` is true exactly
when `Position` is not "bottom".  The four fields depend on the configuration only, and
applying the configuration twice is the same as applying it once. -/
theorem updateDzenConfig_reproduces_config (s t : St) :
    (s.config.Bar.Contiguous = "" → (updateDzenConfig s).contiguousBar = true) ∧
    ((updateDzenConfig s).contiguousBar = false ↔
      (s.config.Bar.Contiguous ≠ "" ∧ s.config.Bar.Contiguous ≠ "yes")) ∧
    (updateDzenConfig s).barHeight
      = (if 0 < s.config.Bar.Height then s.config.Bar.Height else 15) ∧
    (updateDzenConfig s).leftBarWidth
      = (if 0 < s.config.Bar.LeftBarWidth then s.config.Bar.LeftBarWidth else 0) ∧
    ((updateDzenConfig s).isTopBar = true ↔ s.config.Bar.Position ≠ "bottom") ∧
    (t.config.Bar = s.config.Bar →
      (updateDzenConfig t).contiguousBar = (updateDzenConfig s).contiguousBar
      ∧ (updateDzenConfig t).barHeight = (updateDzenConfig s).barHeight
      ∧ (updateDzenConfig t).leftBarWidth = (updateDzenConfig s).leftBarWidth
      ∧ (updateDzenConfig t).isTopBar = (updateDzenConfig s).isTopBar) ∧
    updateDzenConfig (updateDzenConfig s) = updateDzenConfig s := by
  have hpos := goLen_pos_iff s.config.Bar.Contiguous
  refine ⟨?_, ?_, rfl, rfl, ?_, ?_, rfl⟩
  · intro h
    have : ¬ 0 < goLen s.config.Bar.Contiguous := fun h2 => hpos.1 h2 h
    simp [updateDzenConfig, this]
  · by_cases h1 : 0 < goLen s.config.Bar.Contiguous
    · have h1' := hpos.1 h1
      by_cases h2 : s.config.Bar.Contiguous = "yes"
      · simp [updateDzenConfig, h2]
      · simp [updateDzenConfig, h1, h2, h1']
    · have h1' : s.config.Bar.Contiguous = "" := by
        by_contra hne; exact h1 (hpos.2 hne)
      constructor
      · intro h
        simp [updateDzenConfig, h1] at h
      · intro h
        exact absurd h1' h.1
  · by_cases h : s.config.Bar.Position = "bottom" <;> simp [updateDzenConfig, h]
  · intro h
    simp [updateDzenConfig, h]

theorem updateDzenConfig_reproduces_config_witness :
    (updateDzenConfig exStale).contiguousBar = true
    ∧ (updateDzenConfig exStale).barHeight = 15
    ∧ (updateDzenConfig exStale).leftBarWidth = 200
    ∧ (updateDzenConfig exStale).isTopBar = true
    ∧ (updateDzenConfig exRunning).contiguousBar = (updateDzenConfig exStale).contiguousBar := by
  have h := updateDzenConfig_reproduces_config exStale exRunning
  exact ⟨h.1 rfl, h.2.2.1, h.2.2.2.1, h.2.2.2.2.1.2 (by decide), (h.2.2.2.2.2.1 rfl).1⟩

/-- C4: `closeDzenBar` closes the stream first and waits only after a successful close.
Without a stream or without a process it returns `(false, nil)` and changes nothing; when
the close fails it returns `(false, err)` without waiting and without setting `hidden`;
when the close succeeds it sets `hidden`, then waits, and returns `(true, err)` when the
wait fails and `(true, nil)` otherwise.  A wait appears in the trace only directly after
the successful close of the handle's stream. -/
theorem closeDzenBar_close_then_wait (s : St) (d : dzenInfo) :
    closeDzenBar s none = ((false, none), none, s) ∧
    ((d.stdin = none ∨ d.cmd = none) → closeDzenBar s (some d) = ((false, none), some d, s)) ∧
    (∀ stream proc, d.stdin = some stream → d.cmd = some proc →
      (∀ err, s.closeErr stream = some err →
        closeDzenBar s (some d) = ((false, some err), some d,
          { s with trace := s.trace ++ [.close stream, .log "closeDzenBar: close" err] })) ∧
      (s.closeErr stream = none →
        (∀ err, s.waitErr proc = some err →
          closeDzenBar s (some d) = ((true, some err), some { d with hidden := true },
            { s with trace := s.trace ++
                [.close stream, .wait proc, .log "closeDzenBar: wait" err] })) ∧
        (s.waitErr proc = none →
          closeDzenBar s (some d) = ((true, none), some { d with hidden := true },
            { s with trace := s.trace ++ [.close stream, .wait proc] })))) ∧
    (∃ evs, (closeDzenBar s (some d)).2.2.trace = s.trace ++ evs ∧
      ∀ p, Event.wait p ∈ evs →
        ∃ stream rest, d.stdin = some stream ∧ d.cmd = some p ∧ s.closeErr stream = none
          ∧ evs = .close stream :: .wait p :: rest) := by
  refine ⟨rfl, ?_, ?_, ?_⟩
  · rintro (h | h)
    · simp [closeDzenBar, h]
    · cases hs : d.stdin <;> simp [closeDzenBar, h, hs]
  · intro stream proc hs hc
    refine ⟨fun err he => ?_, fun hok => ⟨fun err he => ?_, fun he => ?_⟩⟩
    · simp [closeDzenBar, hs, hc, he, emit]
    · simp [closeDzenBar, hs, hc, hok, he, emit]
    · simp [closeDzenBar, hs, hc, hok, he, emit]
  · cases hs : d.stdin with
    | none => exact ⟨[], by simp [closeDzenBar, hs], by simp⟩
    | some stream =>
      cases hc : d.cmd with
      | none => exact ⟨[], by simp [closeDzenBar, hs, hc], by simp⟩
      | some proc =>
        cases he : s.closeErr stream with
        | some err =>
          exact ⟨[.close stream, .log "closeDzenBar: close" err],
            by simp [closeDzenBar, hs, hc, he, emit], by simp⟩
        | none =>
          cases hw : s.waitErr proc with
          | some err =>
            refine ⟨[.close stream, .wait proc, .log "closeDzenBar: wait" err],
              by simp [closeDzenBar, hs, hc, he, hw, emit], ?_⟩
            intro p hp
            simp at hp
            subst hp
            exact ⟨stream, _, rfl, rfl, he, rfl⟩
          | none =>
            refine ⟨[.close stream, .wait proc],
              by simp [closeDzenBar, hs, hc, he, hw, emit], ?_⟩
            intro p hp
            simp at hp
            subst hp
            exact ⟨stream, _, rfl, rfl, he, rfl⟩

theorem closeDzenBar_close_then_wait_witness :
    closeDzenBar exRunning (some (exHandle "main bar, monitor 0" 1 (exMainArgs "1" "1720")))
      = ((true, none),
          some { exHandle "main bar, monitor 0" 1 (exMainArgs "1" "1720") with hidden := true },
          { exRunning with trace := exRunning.trace ++ [.close 1, .wait 1] }) :=
  ((((closeDzenBar_close_then_wait exRunning
    (exHandle "main bar, monitor 0" 1 (exMainArgs "1" "1720"))).2.2.1 1 1 rfl rfl).2 rfl).2 rfl)

/-- C3: for a monitor index that is negative or at least `len(monitors)` both draw
operations return the error "Monitor index incorrect" and leave the whole state, trace
included, as it was, so nothing is launched; and whenever a draw operation returns an
error, the two slot arrays are as they were before the call. -/
theorem draw_error_leaves_slots (fuel : Nat) (s : St) (monitor : Int) :
    ((monitor < 0 ∨ (s.monitors.length : Int) ≤ monitor) →
      drawDzenMainBarByMonitor fuel s monitor
          = .ok ((dzenInfo.zero, some "Monitor index incorrect"), s)
      ∧ drawDzenLeftBarByMonitor s monitor
          = .ok ((dzenInfo.zero, some "Monitor index incorrect"), s)) ∧
    (∀ res s1, drawDzenMainBarByMonitor fuel s monitor = .ok (res, s1) → res.2 ≠ none →
      s1.dzenMainbar = s.dzenMainbar ∧ s1.dzenLeftbar = s.dzenLeftbar) ∧
    (∀ res s1, drawDzenLeftBarByMonitor s monitor = .ok (res, s1) → res.2 ≠ none →
      s1.dzenMainbar = s.dzenMainbar ∧ s1.dzenLeftbar = s.dzenLeftbar) := by
  refine ⟨fun h => ⟨?_, ?_⟩, drawMain_error_keeps fuel s monitor, drawLeft_error_keeps s monitor⟩
  · simp [drawDzenMainBarByMonitor, drawDzenMainBarByMonitorWith, h]
  · simp [drawDzenLeftBarByMonitor, h]

theorem draw_error_leaves_slots_witness :
    drawDzenMainBarByMonitor 2 exRunning 5
        = .ok ((dzenInfo.zero, some "Monitor index incorrect"), exRunning)
    ∧ drawDzenLeftBarByMonitor exRunning 5
        = .ok ((dzenInfo.zero, some "Monitor index incorrect"), exRunning) :=
  (draw_error_leaves_slots 2 exRunning 5).1 (by decide)

/-- C5 fails as stated: the separator written before each icon is the character U+00A0,
two bytes long, so each present key adds `len(icon) + len(value) + 3`; on the snapshot with
`VOL 50%` and `12:00` the function returns 17, and the stated sum is 15. -/
theorem statusBarLen_not_plus_two :
    statusBarLen exState = 17 ∧ statedPlainLen exState = 15
    ∧ statusBarLen exState ≠ statedPlainLen exState := by
  decide

/-- C5, amended: `statusBarLen` is the sum over the ordered keys present in the snapshot of
`len(icon) + len(value) + 3`; two states with the same ordered keys whose snapshots agree
on the keys present and on the icon and value of each present metric give the same number,
whatever the formatted texts, templates, length fields, colours and popups are. -/
theorem statusBarLen_counts_no_markup (s t : St) (hk : t.keys = s.keys)
    (hd : ∀ k, (t.data k).map (fun c => (c.icon, c.value))
      = (s.data k).map (fun c => (c.icon, c.value))) :
    statusBarLen t = statusBarLen s ∧ statusBarLen s = plainLen s := by
  refine ⟨?_, statusBarLen_eq_plainLen s⟩
  rw [statusBarLen_eq_plainLen, statusBarLen_eq_plainLen, plainLen, plainLen, hk]
  congr 1
  apply List.map_congr_left
  intro k _
  have h := hd k
  unfold metricLen
  cases h1 : t.data k <;> cases h2 : s.data k <;> simp [h1, h2] at h ⊢
  rw [h.1, h.2]

theorem statusBarLen_counts_no_markup_witness :
    statusBarLen exRecolored = statusBarLen exState ∧ statusBarLen exState = plainLen exState :=
  statusBarLen_counts_no_markup exState exRecolored rfl (by
    intro k
    simp only [exRecolored, exState, exData]
    by_cases h1 : k = "volume"
    · simp [h1]
    · by_cases h2 : k = "clock" <;> simp [h1, h2])

set_option maxRecDepth 8000 in
/-- C6 fails as stated: every segment starts with the character U+00A0 and not with a
blank, so the text returned for the snapshot with a volume and a clock metric is not the
concatenation of the segments as stated. -/
theorem statusBar_text_not_blank :
    (statusBar 2 exState 0).toOption.map
        (fun r => decide (r.1 = statedLine exState 0 { width := 1920, height := 1080 }))
      = some false := by
  decide

/-- C6, amended: for an in-range screen the text returned by `statusBar` is the
concatenation, in key order, of the segments of the keys present in the snapshot, followed
by the username segment; the segment of a key is the character U+00A0 followed by the
clickable wrapper sized by `barWidthFromKey` exactly for "clock" with a clock popup and
"weather" with a weather popup, and the character U+00A0 followed by the formatted text
otherwise.  With one slot per monitor the call returns. -/
theorem statusBar_text (s : St) (m : Nat) (mon : monitor) (hm : s.monitors[m]? = some mon) :
    (∀ fuel text s1, statusBar fuel s (m : Int) = .ok (text, s1) →
      text = statusLine s (m : Int) mon) ∧
    (s.monitors.length ≤ s.dzenMainbar.length →
      ∀ f, ∃ s1, statusBar (f + 2) s (m : Int) = .ok (statusLine s (m : Int) mon, s1)) := by
  constructor
  · intro fuel text s1 h
    simp only [statusBar, statusBarWith, statusBarText_eq s m mon hm, bind, Except.bind] at h
    split at h
    · cases h
    · cases h; rfl
  · intro hslots f
    obtain ⟨M, T, hrz, -⟩ := resize_ok s hslots f
    refine ⟨s.upd (if s.contiguousBar then s.mainbarWidth else scaleByMagic (statusBarLen s))
      M s.dzenLeftbar (s.nextId + execCount T) (s.trace ++ T), ?_⟩
    simp only [statusBar, statusBarWith, statusBarText_eq s m mon hm, bind, Except.bind, hrz]

set_option maxRecDepth 8000 in
theorem statusBar_text_witness :
    ∃ s1, statusBar 2 exState 0 = .ok
      ("\u00a0^fg(#aaa)VOL ^fg(#fff)50%\u00a0^ca(1,popup-clock 1 1920 1080 97)^fg(#aaa) "
        ++ "^fg(#fff)12:00^ca() ^fg(#222)\ue04b^fg(#ddd)^bg(#222)\ue032 joe ", s1) := by
  obtain ⟨s1, h⟩ := (statusBar_text exState 0 { width := 1920, height := 1080 } rfl).2
    (by decide) 0
  have hline : statusLine exState 0 { width := 1920, height := 1080 }
      = "\u00a0^fg(#aaa)VOL ^fg(#fff)50%\u00a0^ca(1,popup-clock 1 1920 1080 97)^fg(#aaa) "
        ++ "^fg(#fff)12:00^ca() ^fg(#222)\ue04b^fg(#ddd)^bg(#222)\ue032 joe " := by
    decide
  exact ⟨s1, by rw [← hline]; exact h⟩

/-- C7 fails as stated: with one metric of length 1118480 and an empty username the sum is
1118485, `7.5 * 1118485 = 8388637.5` is not a `float32`, the product rounds to 8388638, and
the truncation of the exact product is 8388637. -/
theorem barWidthFromKey_not_truncation :
    barWidthFromKey exLongKeys "a"
      ≠ truncMagic (suffixLen exLongKeys "a" + goLen exLongKeys.username + 5) := by
  decide

/-- C7, amended: for length fields in the 64-bit range, `barWidthFromKey(key)` is
`int(float32(w) * 7.5)`, computed in `float32`, where `w` is `S + len(username) + 5`
reduced to 64 bits and `S` is the sum of the length fields from the first occurrence of
`key` to the end of the ordered sequence (`0` when `key` does not occur); it is the
truncation of `7.5 * (S + len(username) + 5)` whenever `15 * |S + len(username) + 5|` is
below `2 ^ 24`. -/
theorem barWidthFromKey_scaled (s : St) (key : String)
    (_hl : ∀ k, inInt64 (lengthOf s k)) (hu : inInt64 (goLen s.username + 5)) :
    barWidthFromKey s key = scaleByMagic (wrap64 (suffixLen s key + goLen s.username + 5)) ∧
    (15 * (suffixLen s key + goLen s.username + 5).natAbs < 2 ^ 24 →
      barWidthFromKey s key = truncMagic (suffixLen s key + goLen s.username + 5)) ∧
    (key ∉ s.keys → suffixLen s key = 0
      ∧ barWidthFromKey s key = scaleByMagic (goLen s.username + 5)) := by
  refine ⟨barWidthFromKey_eq s key, fun h => ?_, fun h => ?_⟩
  · rw [barWidthFromKey_eq, wrap64_small _ (by omega) (by omega), scaleByMagic_exact _ h]
  · have h0 := suffixLen_absent s key h
    refine ⟨h0, ?_⟩
    rw [barWidthFromKey_eq, h0, zero_add, wrap64_small _ hu.1 hu.2]

theorem barWidthFromKey_scaled_witness :
    barWidthFromKey exState "clock" = truncMagic (5 + 3 + 5)
    ∧ barWidthFromKey exState "weather" = scaleByMagic (3 + 5) := by
  have hl : ∀ k, inInt64 (lengthOf exState k) := by
    intro k
    simp only [lengthOf, exState, exData]
    by_cases h1 : k = "volume"
    · simp only [h1, if_true]; decide
    · by_cases h2 : k = "clock"
      · subst h2; simp only [h1, if_true, if_false]; decide
      · simp only [h1, h2, if_false]; decide
  have hu : inInt64 (goLen exState.username + 5) := by decide
  exact ⟨(barWidthFromKey_scaled exState "clock" hl hu).2.1 (by decide),
    ((barWidthFromKey_scaled exState "weather" hl hu).2.2 (by decide)).2⟩

/-- C8 fails as stated: under non-contiguous layout with a cached width of 500 and a status
line of 17 bytes, `updateStatusBar` stores the width 127, launches two renderers and
replaces the handles of both main-bar slots. -/
theorem updateStatusBar_may_respawn :
    ((updateStatusBar 2 exLooseRunning exData).toOption.map
        (fun s1 => (s1.mainbarWidth, execCount s1.trace, s1.dzenMainbar.map dzenInfo.cmd)))
      = some (127, 2, [some 4, some 5])
    ∧ exLooseRunning.mainbarWidth = 500
    ∧ exLooseRunning.dzenMainbar.map dzenInfo.cmd = [some 1, some 3]
    ∧ execCount exLooseRunning.trace = 0 := by
  decide

/-- C8, amended: when, for the fresh snapshot, the layout is contiguous or the width
computed from the snapshot is the cached one, and every main-bar slot holds a stream and
belongs to a monitor, `updateStatusBar` writes for each slot in order the status line of
its monitor and a newline to the stream of the slot, launches nothing, and leaves the
handles of all slots and the cached width unchanged. -/
theorem updateStatusBar_writes_only (f : Nat) (s : St) (fresh : String → Option info)
    (hs : synced { s with data := fresh })
    (hstreams : ∀ slot ∈ s.dzenMainbar, slot.stdin ≠ none)
    (hlen : s.dzenMainbar.length ≤ s.monitors.length) :
    ∃ s1, updateStatusBar (f + 1) s fresh = .ok s1
      ∧ s1.trace = s.trace ++ updateEvents { s with data := fresh } s.dzenMainbar.length 0
      ∧ execCount (updateEvents { s with data := fresh } s.dzenMainbar.length 0) = 0
      ∧ s1.nextId = s.nextId
      ∧ s1.dzenMainbar = s.dzenMainbar
      ∧ s1.dzenLeftbar = s.dzenLeftbar
      ∧ s1.mainbarWidth = s.mainbarWidth := by
  have h := updateLoop_synced f { s with data := fresh } hs hstreams hlen s.dzenMainbar.length 0
    s.trace (by simp)
  refine ⟨_, h, rfl, execCount_updateEvents _ _ _, rfl, rfl, rfl, rfl⟩

set_option maxRecDepth 8000 in
theorem updateStatusBar_writes_only_witness :
    ∃ s1, updateStatusBar 1 exRunning exData = .ok s1
      ∧ s1.trace =
          [.write 1 ("\u00a0^fg(#aaa)VOL ^fg(#fff)50%\u00a0^ca(1,popup-clock 1 1920 1080 97)"
              ++ "^fg(#aaa) ^fg(#fff)12:00^ca() ^fg(#222)\ue04b^fg(#ddd)^bg(#222)\ue032 joe \n"),
           .write 3 ("\u00a0^fg(#aaa)VOL ^fg(#fff)50%\u00a0^ca(1,popup-clock 2 1280 1024 97)"
              ++ "^fg(#aaa) ^fg(#fff)12:00^ca() ^fg(#222)\ue04b^fg(#ddd)^bg(#222)\ue032 joe \n")]
      ∧ s1.dzenMainbar = exRunning.dzenMainbar
      ∧ s1.mainbarWidth = 500 := by
  obtain ⟨s1, h1, h2, _, _, h5, _, h7⟩ :=
    updateStatusBar_writes_only 0 exRunning exData (Or.inl rfl) (by decide) (by decide)
  exact ⟨s1, h1, h2.trans (by decide), h5, h7⟩

/-- C9 fails as stated: from the initial cached width 500 under non-contiguous layout, the
draw of monitor 0 installs a visible main handle of width 500 and stores the width 127;
after two toggles the main handle of monitor 0 has width 127 at another position. -/
theorem toggleBars_twice_changes_geometry :
    exLooseRun.toOption.map (fun r => (r.1.dzenLeftbar.map observe)[0]?)
        = some (some (some 0, some 0, false, exLeftArgs "1"))
    ∧ exLooseRun.toOption.map (fun r => (r.1.dzenMainbar.map observe)[0]?)
        = some (some (some 1, some 1, false, ["-xs", "1", "-ta", "r", "-fn", "fixed", "-x",
            "1419", "-y", "0", "-w", "500", "-h", "15", "-bg", "#000", "-fg", "#aaa", "-e",
            "button2=;"]))
    ∧ exLooseRun.toOption.map (fun r => (r.2.1.dzenMainbar.map dzenInfo.hidden)[0]?)
        = some (some true)
    ∧ exLooseRun.toOption.map (fun r => (r.2.2.dzenMainbar.map observe)[0]?)
        = some (some (some 5, some 5, false, ["-xs", "1", "-ta", "r", "-fn", "fixed", "-x",
            "1792", "-y", "0", "-w", "127", "-h", "15", "-bg", "#000", "-fg", "#aaa", "-e",
            "button2=;"])) := by
  refine ⟨?_, ?_, ?_, ?_⟩ <;> decide

/-- C9, amended: the first toggle of a monitor whose two handles are running and visible and
whose closes succeed hides both handles, launches nothing and leaves the other monitors'
handles alone.  When the original draw of the monitor is made in a state whose layout is
contiguous or whose cached main-bar width is the one computed from the snapshot, and the
launches and closes succeed, the second toggle installs fresh visible handles whose
argument vectors are those of the original draw and writes the same texts; the handles of
the other monitors are unchanged by both toggles. -/
theorem toggleBars_twice_restores (f m : Nat) (mon : monitor) :
    (∀ (s : St) (lh mh : dzenInfo) (ls lp ms mp : Nat),
      s.dzenLeftbar[m]? = some lh → s.dzenMainbar[m]? = some mh →
      lh.stdin = some ls → lh.cmd = some lp → lh.hidden = false →
      mh.stdin = some ms → mh.cmd = some mp → mh.hidden = false →
      s.closeErr ls = none → s.closeErr ms = none →
      ∃ s2 T, toggleBars f s (m : Int) = .ok s2
        ∧ s2.dzenLeftbar[m]? = some { lh with hidden := true }
        ∧ s2.dzenMainbar[m]? = some { mh with hidden := true }
        ∧ s2.trace = s.trace ++ T ∧ execCount T = 0 ∧ s2.nextId = s.nextId
        ∧ ∀ j, j ≠ m → s2.dzenLeftbar[j]? = s.dzenLeftbar[j]?
            ∧ s2.dzenMainbar[j]? = s.dzenMainbar[j]?) ∧
    (∀ s0 : St, synced s0 → s0.monitors[m]? = some mon →
      m < s0.dzenLeftbar.length → m < s0.dzenMainbar.length →
      (∀ k, k < 4 → s0.spawnOutcome (s0.nextId + k) = .started) →
      s0.closeErr s0.nextId = none → s0.closeErr (s0.nextId + 1) = none →
      ∃ s1 s2 s3 l1 m1 l3 m3 T1 T2 T3,
        drawDzenByMonitor (f + 1) s0 (m : Int) = .ok s1
        ∧ toggleBars (f + 1) s1 (m : Int) = .ok s2
        ∧ toggleBars (f + 1) s2 (m : Int) = .ok s3
        ∧ s1.dzenLeftbar[m]? = some l1 ∧ s1.dzenMainbar[m]? = some m1
        ∧ l1.hidden = false ∧ m1.hidden = false
        ∧ s2.dzenLeftbar[m]? = some { l1 with hidden := true }
        ∧ s2.dzenMainbar[m]? = some { m1 with hidden := true }
        ∧ s3.dzenLeftbar[m]? = some l3 ∧ s3.dzenMainbar[m]? = some m3
        ∧ l3.hidden = false ∧ m3.hidden = false
        ∧ l3.args = l1.args ∧ m3.args = m1.args
        ∧ l3.cmd = some (s0.nextId + 2) ∧ l3.stdin = some (s0.nextId + 2)
        ∧ m3.cmd = some (s0.nextId + 3) ∧ m3.stdin = some (s0.nextId + 3)
        ∧ l3.cmd ≠ l1.cmd ∧ m3.cmd ≠ m1.cmd
        ∧ s1.trace = s0.trace ++ T1 ∧ s2.trace = s1.trace ++ T2 ∧ s3.trace = s2.trace ++ T3
        ∧ execCount T2 = 0 ∧ execCount T3 = 2 ∧ writesOf T3 = writesOf T1
        ∧ ∀ j, j ≠ m →
            s2.dzenLeftbar[j]? = s1.dzenLeftbar[j]? ∧ s2.dzenMainbar[j]? = s1.dzenMainbar[j]?
            ∧ s3.dzenLeftbar[j]? = s1.dzenLeftbar[j]?
            ∧ s3.dzenMainbar[j]? = s1.dzenMainbar[j]?) := by
  constructor
  · intro s lh mh ls lp ms mp hL hM hls hlp hlv hms hmp _ hcl hcm
    obtain ⟨s2, T, h, hs2, he, _⟩ := toggle_first f s m lh mh ls lp ms mp hL hM hls hlp hlv hms
      hmp hcl hcm
    have hl1 := lt_of_getElem_some _ _ _ hL
    have hm1 := lt_of_getElem_some _ _ _ hM
    subst hs2
    refine ⟨_, T, h, ?_, ?_, rfl, he, rfl, ?_⟩
    · simp [List.getElem?_set, hl1]
    · simp [List.getElem?_set, hm1]
    · intro j hj
      have hj' : m ≠ j := fun h => hj h.symm
      simp [List.getElem?_set, hj']
  · intro s0 hs hm hL hM hsp hc0 hc1
    obtain ⟨textL, T1, T2, T3, h1, h2, h3, hw1, _, _, he2, hw3, he3⟩ :=
      toggle_scenario f m mon s0 hs hm hL hM hsp hc0 hc1
    refine ⟨_, _, _, leftHandle s0 m mon,
      { name := "main bar, monitor " ++ fmtInt m, cmd := some (s0.nextId + 1),
        args := mainBarArgs s0 m mon, stdin := some (s0.nextId + 1), hidden := false },
      { name := "left bar, monitor " ++ fmtInt m, cmd := some (s0.nextId + 2),
        args := leftBarArgs s0 m mon, stdin := some (s0.nextId + 2), hidden := false },
      { name := "main bar, monitor " ++ fmtInt m, cmd := some (s0.nextId + 3),
        args := mainBarArgs s0 m mon, stdin := some (s0.nextId + 3), hidden := false },
      T1, T2, T3, h1, h2, h3, ?_, ?_, rfl, rfl, ?_, ?_, ?_, ?_, rfl, rfl, rfl, rfl, rfl, rfl,
      rfl, rfl, ?_, ?_, rfl, rfl, rfl, he2, he3, by rw [hw3, hw1], ?_⟩
    · simp [List.getElem?_set, hL]
    · simp [List.getElem?_set, hM]
    · simp [List.getElem?_set, hL]
    · simp [List.getElem?_set, hM]
    · simp [List.getElem?_set, hL]
    · simp [List.getElem?_set, hM]
    · simp [leftHandle]
    · simp
    · intro j hj
      have hj' : m ≠ j := fun h => hj h.symm
      simp [List.getElem?_set, hj']

theorem toggleBars_twice_restores_witness :
    (∃ s2 T, toggleBars 1 exRunning 0 = .ok s2
      ∧ (s2.dzenLeftbar.map dzenInfo.hidden)[0]? = some true
      ∧ s2.trace = exRunning.trace ++ T ∧ execCount T = 0) ∧
    (∃ s1 s2 s3 l1 m1 l3 m3,
      drawDzenByMonitor 1 exState 0 = .ok s1
      ∧ toggleBars 1 s1 0 = .ok s2 ∧ toggleBars 1 s2 0 = .ok s3
      ∧ s1.dzenLeftbar[0]? = some l1 ∧ s1.dzenMainbar[0]? = some m1
      ∧ s3.dzenLeftbar[0]? = some l3 ∧ s3.dzenMainbar[0]? = some m3
      ∧ l3.args = l1.args ∧ m3.args = m1.args ∧ l3.cmd = some 2 ∧ m3.cmd = some 3) := by
  have h := toggleBars_twice_restores 0 0 { width := 1920, height := 1080 }
  constructor
  · obtain ⟨s2, T, h1, h2, _, h4, h5, _⟩ := h.1 exRunning
      (exHandle "left bar, monitor 0" 0 (exLeftArgs "1"))
      (exHandle "main bar, monitor 0" 1 (exMainArgs "1" "1720")) 0 0 1 1
      rfl rfl rfl rfl rfl rfl rfl rfl rfl rfl
    refine ⟨s2, T, h1, ?_, h4, h5⟩
    simp [h2]
  · obtain ⟨s1, s2, s3, l1, m1, l3, m3, T1, T2, T3, h1, h2, h3, h4, h5, _, _, _, _, h10, h11,
      _, _, h14, h15, h16, _, h18, _⟩ := h.2 exState (Or.inl rfl) rfl (by decide) (by decide)
        (fun _ _ => rfl) rfl rfl
    exact ⟨s1, s2, s3, l1, m1, l3, m3, h1, h2, h3, h4, h5, h10, h11, h14, h15, h16, h18⟩

/-- C10 fails as stated: with a status line of 1118485 bytes `7.5 * 1118485` is
8388637.5, the `float32` product rounds to 8388638, and that is the width stored, while
the truncation is 8388637. -/
theorem resizeDzenMainBar_width_not_truncation :
    ∃ s1, resizeDzenMainBar 2 exLongText = .ok s1
      ∧ s1.mainbarWidth ≠ truncMagic (statusBarLen s1) := by
  obtain ⟨M, T, h, -⟩ := resize_ok exLongText (by decide) 0
  refine ⟨_, h, ?_⟩
  have hc : exLongText.contiguousBar = false := rfl
  simp only [upd_mainbarWidth, statusBarLen_upd, hc, statusBarLen_exLongText]
  decide

/-- C10, amended: `resizeDzenMainBar` terminates in every state, at call depth two: the
result does not change with more fuel and is never the exhaustion of the fuel.  Under
contiguous layout it returns at once.  Otherwise the new width is stored before the
respawn, the state is then in step with its snapshot, and every call made in such a state
returns it unchanged; so a top-level call makes no launch attempt when the cached width
is already the computed one and one attempt per monitor otherwise, and under
non-contiguous layout the cached width is then `int(float32(statusBarLen()) * 7.5)`,
which is the truncation of `7.5 * statusBarLen()` whenever `15 * statusBarLen() < 2 ^ 24`. -/
theorem resizeDzenMainBar_terminates (s : St) :
    (∀ f, resizeDzenMainBar (f + 2) s = resizeDzenMainBar 2 s) ∧
    resizeDzenMainBar 2 s ≠ .error .outOfFuel ∧
    (s.contiguousBar = true → ∀ f, resizeDzenMainBar (f + 1) s = .ok s) ∧
    (∀ f t, synced t → resizeDzenMainBar (f + 1) t = .ok t) ∧
    (s.contiguousBar = false →
      synced { s with mainbarWidth := scaleByMagic (statusBarLen s) }) ∧
    (∀ s1, resizeDzenMainBar 2 s = .ok s1 →
      (∃ T, s1.trace = s.trace ++ T ∧ execCount T ≤ s.monitors.length
        ∧ (synced s → execCount T = 0) ∧ (¬ synced s → execCount T = s.monitors.length))
      ∧ synced s1
      ∧ (s.contiguousBar = false →
          s1.mainbarWidth = scaleByMagic (statusBarLen s1)
          ∧ (15 * (statusBarLen s1).natAbs < 2 ^ 24 →
              s1.mainbarWidth = truncMagic (statusBarLen s1)))) ∧
    (s.monitors.length ≤ s.dzenMainbar.length → ∃ s1, resizeDzenMainBar 2 s = .ok s1) := by
  obtain ⟨r, hr, hpost⟩ := resize_post s
  have h2 : resizeDzenMainBar 2 s = r := hr 0
  refine ⟨fun f => by rw [hr f, h2], ?_, ?_, fun f t ht => resize_synced f t ht, ?_, ?_, ?_⟩
  · rw [h2]
    rcases hpost with ⟨M, T, hrr, -⟩ | ⟨hrr, -⟩
    · rw [hrr]; intro h; cases h
    · rw [hrr]; intro h; cases h
  · intro hc f
    exact resize_synced f s (Or.inl hc)
  · intro _
    exact synced_setWidth s _ _ _ _
  · intro s1 h1
    rw [h2] at h1
    rcases hpost with ⟨M, T, hrr, -, hsy, hns⟩ | ⟨hrr, -⟩
    · rw [hrr] at h1
      cases h1
      refine ⟨⟨T, rfl, ?_, fun h => ?_, hns⟩, ?_, ?_⟩
      · by_cases h : synced s
        · rw [(hsy h).2]; simp [execCount]
        · rw [hns h]
      · rw [(hsy h).2]; rfl
      · cases hc : s.contiguousBar with
        | true => exact Or.inl hc
        | false => right; simp [hc]
      · intro hc
        have hw : (s.upd (if s.contiguousBar = true then s.mainbarWidth
            else scaleByMagic (statusBarLen s)) M s.dzenLeftbar (s.nextId + execCount T)
            (s.trace ++ T)).mainbarWidth = scaleByMagic (statusBarLen s) := by
          simp [hc]
        refine ⟨by rw [hw, statusBarLen_upd], fun hb => ?_⟩
        rw [hw, statusBarLen_upd] at *
        exact scaleByMagic_exact _ hb
    · rw [hrr] at h1; cases h1
  · intro hslots
    obtain ⟨M, T, h, -⟩ := resize_ok s hslots 0
    exact ⟨_, h⟩

theorem resizeDzenMainBar_terminates_witness :
    resizeDzenMainBar 1 exRunning = .ok exRunning
    ∧ synced { exLooseRunning with mainbarWidth := scaleByMagic (statusBarLen exLooseRunning) }
    ∧ ∃ s1, resizeDzenMainBar 2 exLooseRunning = .ok s1 :=
  ⟨(resizeDzenMainBar_terminates exRunning).2.2.1 rfl 0,
   (resizeDzenMainBar_terminates exLooseRunning).2.2.2.2.1 rfl,
   (resizeDzenMainBar_terminates exLooseRunning).2.2.2.2.2.2 (by decide)⟩

end Dzen
